import Mathlib

/-!
# NAND SPI flash driver: a shallow embedding of nand_spi_flash.c

The driver keeps five file-scope variables (the stored config, the scratch
buffer pointer and the three geometry words).  They become the fields of
`State`.  The caller-supplied transport and delay primitives act on an
external world of type `δ`; the world and a ghost trace of the calls made to
the two primitives are carried in the state as well.

Bytes and machine words are natural numbers; every store into a `uint8_t`
cell reduces modulo 256 and every `uint16_t` argument is reduced modulo 65536
where the source can exceed the range.  Arithmetic on `uint16_t` operands is
done after promotion to a 32-bit `int`, which cannot overflow for two 16-bit
operands, so it is plain addition on `Nat`.

Undefined behaviour of the C program (dereferencing the NULL scratch pointer,
calling a NULL function pointer, indexing outside an array) and running out of
loop fuel are reported as a `Res.fault`.
-/

namespace NandSpiFlash

/-! ## Constants -/

-- enum nand_spi_flash_error (nand_spi_flash.h)
def NSF_ERR_OK : Int := 0
def NSF_ERR_NOT_INITED : Int := -1
def NSF_ERR_ALREADY_INITED : Int := -2
def NSF_ERR_UNKNOWN_DEVICE : Int := -3
def NSF_ERR_READ_ONLY : Int := -4
def NSF_ERR_BAD_BLOCK : Int := -5
def NSF_ERR_DATA_TOO_BIG : Int := -6
def NSF_ERR_ERASE : Int := -7
def NSF_ERR_PROGRAM : Int := -8
def NSF_ERROR_SPI : Int := -100

-- Device codes
def NSF_DEVICE_TOSHIBA_TC58CVx : Nat := 0x98
def NSF_DEVICE_TC58CVG2S0HxAIx : Nat := 0xCD
def NSF_DEVICE_GIGADEVICE_GD5FxGQ4x : Nat := 0xC8
def NSF_DEVICE_GD5F1GQ4R : Nat := 0xA1
def NSF_DEVICE_GD5F2GQ4R : Nat := 0xA2
def NSF_DEVICE_GD5F1GQ4U : Nat := 0xB1
def NSF_DEVICE_GD5F2GQ4U : Nat := 0xB2

-- Nand flash commands
def NSF_CMD_MAX_BYTES : Nat := 4
def NSF_CMD_READ_ID : Nat := 0x9F
def NSF_CMD_READ_CELL_TO_CACHE : Nat := 0x13
def NSF_CMD_GET_FEATURE : Nat := 0x0F
def NSF_CMD_SET_FEATURE : Nat := 0x1F
def NSF_CMD_FEATURE_STATUS : Nat := 0xC0
def NSF_CMD_FEATURE_LOCK : Nat := 0xA0
def NSF_CMD_RESET : Nat := 0xFF
def NSF_CMD_WRITE_ENABLE : Nat := 0x06
def NSF_CMD_BLOCK_ERASE : Nat := 0xD8
def NSF_CMD_PROGRAM_LOAD : Nat := 0x02
def NSF_CMD_PROGRAM_EXECUTE : Nat := 0x10

-- Nand flash status bits
def NSF_OIP_MASK : Nat := 0x01
def NSF_PRG_F_MASK : Nat := 0x08
def NSF_ERS_F_MASK : Nat := 0x04
def NSF_ECC_MASK : Nat := 0x30

-- Timings
def NSF_PAGE_READ_TIME_US : Nat := 115

/-! ## Results, events, configuration and state -/

/-- Ways in which a run of the model leaves defined behaviour. -/
inductive Fault where
  | nullDeref
  | outOfBounds
  | outOfFuel
  deriving DecidableEq, Repr

/-- Outcome of running a piece of driver code. -/
inductive Res (α : Type) where
  | ok (a : α)
  | fault (f : Fault)

/-- Sequencing of driver code: a fault ends the run. -/
def Res.bind {α β : Type} (x : Res α) (f : α → Res β) : Res β :=
  match x with
  | .ok a => f a
  | .fault e => .fault e

/-- A call made to one of the two caller-supplied primitives. For a transfer
the event keeps the bytes written on the link (the first tx_len bytes of the
buffer at the time of the call) and the number of bytes requested back. -/
inductive Event where
  | delay (us : Nat)
  | spi (tx : List Nat) (rx_len : Nat)
  deriving DecidableEq, Repr

/-- The struct nand_spi_flash_config_t. The transfer primitive receives the
world, the buffer it is pointed at and the two lengths; it gives back its
return value, the buffer as it leaves it, and the new world. -/
structure Config (δ : Type) where
  spi_transfer : δ → List Nat → Nat → Nat → Int × List Nat × δ
  delay_us : δ → Nat → δ

/-- The file-scope variables of nand_spi_flash.c, the external world and the
ghost trace of primitive calls. -/
structure State (δ : Type) where
  m_nsf_config : Option (Config δ)
  m_nsf_buffer : Option (List Nat)
  m_nsf_page_size_bytes : Nat
  m_nsf_block_size_pages : Nat
  m_nsf_blocks_count : Nat
  dev : δ
  trace : List Event

/-- What C leaves to the environment in nand_spi_flash_init: the contents of
the local array before it is written, the contents of the block returned by
malloc, and whether malloc returns NULL instead of a block. -/
structure Indeterminate where
  stack : Nat → Nat
  heap : Nat → Nat
  malloc_null : Bool := false

/-- The state at program start: static initialisers of the five variables. -/
def initialState {δ : Type} (d : δ) : State δ :=
  { m_nsf_config := none, m_nsf_buffer := none, m_nsf_page_size_bytes := 0,
    m_nsf_block_size_pages := 0, m_nsf_blocks_count := 0, dev := d, trace := [] }

/-! ## Primitive steps -/

/-- A byte array after the transport has run on it: the array keeps its
length and its cells hold bytes, whatever list the transport hands back. -/
def writeBack (buf out : List Nat) : List Nat :=
  (out.take buf.length ++ buf.drop out.length).map (fun b => b % 256)

/-- One call of config.spi_transfer on a byte array. -/
def exchange {δ : Type} (cfg : Config δ) (d : δ) (buf : List Nat) (tx_len rx_len : Nat) :
    Int × List Nat × δ :=
  let r := cfg.spi_transfer d buf tx_len rx_len
  (r.1, writeBack buf r.2.1, r.2.2)

/-- The read m_nsf_buffer[i]. -/
def load {δ : Type} (s : State δ) (i : Nat) : Res Nat :=
  match s.m_nsf_buffer with
  | none => .fault .nullDeref
  | some buf => if i < buf.length then .ok (buf.getD i 0) else .fault .outOfBounds

/-- The assignment m_nsf_buffer[i] = v, truncating v to a byte. -/
def store {δ : Type} (s : State δ) (i v : Nat) : Res (State δ) :=
  match s.m_nsf_buffer with
  | none => .fault .nullDeref
  | some buf =>
    if i < buf.length then .ok { s with m_nsf_buffer := some (buf.set i (v % 256)) }
    else .fault .outOfBounds

/-- The call m_nsf_config.spi_transfer(m_nsf_buffer, tx_len, rx_len). -/
def call_spi_transfer {δ : Type} (s : State δ) (tx_len rx_len : Nat) : Res (Int × State δ) :=
  match s.m_nsf_config, s.m_nsf_buffer with
  | some cfg, some buf =>
    if tx_len + rx_len ≤ buf.length then
      let r := exchange cfg s.dev buf tx_len rx_len
      .ok (r.1, { s with m_nsf_buffer := some r.2.1, dev := r.2.2,
                         trace := s.trace ++ [Event.spi (buf.take tx_len) rx_len] })
    else .fault .outOfBounds
  | _, _ => .fault .nullDeref

/-- The call m_nsf_config.delay_us(us). -/
def call_delay_us {δ : Type} (s : State δ) (us : Nat) : Res (State δ) :=
  match s.m_nsf_config with
  | some cfg => .ok { s with dev := cfg.delay_us s.dev us, trace := s.trace ++ [Event.delay us] }
  | none => .fault .nullDeref

/-- The call memcpy(&m_nsf_buffer[off], data, n). -/
def copy_in {δ : Type} (s : State δ) (off : Nat) (data : List Nat) (n : Nat) : Res (State δ) :=
  match s.m_nsf_buffer with
  | none => .fault .nullDeref
  | some buf =>
    if off + n ≤ buf.length ∧ n ≤ data.length then
      let buf1 := buf.take off ++ (data.take n).map (fun b => b % 256) ++ buf.drop (off + n)
      .ok { s with m_nsf_buffer := some buf1 }
    else .fault .outOfBounds

/-- The call memcpy(buffer, &m_nsf_buffer[off], n); the result is the new
contents of the destination. -/
def copy_out {δ : Type} (s : State δ) (off n : Nat) (buffer : List Nat) : Res (List Nat) :=
  match s.m_nsf_buffer with
  | none => .fault .nullDeref
  | some buf =>
    if off + n ≤ buf.length ∧ n ≤ buffer.length then
      .ok ((buf.drop off).take n ++ buffer.drop n)
    else .fault .outOfBounds

/-! ## The driver functions -/

def nand_spi_flash_page_size_bytes {δ : Type} (s : State δ) : Nat := s.m_nsf_page_size_bytes

def nand_spi_flash_block_size_pages {δ : Type} (s : State δ) : Nat := s.m_nsf_block_size_pages

def nand_spi_flash_blocks_count {δ : Type} (s : State δ) : Nat := s.m_nsf_blocks_count

/-- The local array m_buffer of nand_spi_flash_init after its first byte has
been set to the read-identification opcode; the other three cells are
indeterminate. -/
def idBuffer (mem : Indeterminate) : List Nat :=
  [NSF_CMD_READ_ID, mem.stack 1 % 256, mem.stack 2 % 256, mem.stack 3 % 256]

/-- The pointer returned by malloc(n): NULL when the allocation fails,
otherwise a block of n bytes of indeterminate contents. -/
def malloc (mem : Indeterminate) (n : Nat) : Option (List Nat) :=
  if mem.malloc_null then none else some ((List.range n).map (fun i => mem.heap i % 256))

/-- Embedding of nand_spi_flash_init (nand_spi_flash.c lines 67-113). The
pointer returned by malloc is stored in m_nsf_buffer as it is, NULL included,
and the function returns NSF_ERR_OK (lines 110-112). -/
def nand_spi_flash_init {δ : Type} (s : State δ) (config : Config δ) (mem : Indeterminate) :
    Res (Int × State δ) :=
  match s.m_nsf_buffer with
  | some _ => .ok (NSF_ERR_ALREADY_INITED, s)
  | none =>
    let r := exchange config s.dev (idBuffer mem) 2 2
    let s1 : State δ :=
      { s with m_nsf_config := some config, dev := r.2.2,
               trace := s.trace ++ [Event.spi ((idBuffer mem).take 2) 2] }
    let m_buffer := r.2.1
    if r.1 ≠ 0 then .ok (NSF_ERROR_SPI, s1)
    else if m_buffer.getD 2 0 = NSF_DEVICE_TOSHIBA_TC58CVx then
      if m_buffer.getD 3 0 = NSF_DEVICE_TC58CVG2S0HxAIx then
        .ok (NSF_ERR_OK,
          { s1 with m_nsf_page_size_bytes := 4096, m_nsf_block_size_pages := 64,
                    m_nsf_blocks_count := 2048,
                    m_nsf_buffer := malloc mem (4096 + NSF_CMD_MAX_BYTES) })
      else .ok (NSF_ERR_UNKNOWN_DEVICE, s1)
    else if m_buffer.getD 1 0 = NSF_DEVICE_GIGADEVICE_GD5FxGQ4x then
      if m_buffer.getD 2 0 = NSF_DEVICE_GD5F1GQ4R ∨ m_buffer.getD 2 0 = NSF_DEVICE_GD5F1GQ4U then
        .ok (NSF_ERR_OK,
          { s1 with m_nsf_page_size_bytes := 2048, m_nsf_block_size_pages := 64,
                    m_nsf_blocks_count := 1024,
                    m_nsf_buffer := malloc mem (2048 + NSF_CMD_MAX_BYTES) })
      else if m_buffer.getD 2 0 = NSF_DEVICE_GD5F2GQ4R ∨
              m_buffer.getD 2 0 = NSF_DEVICE_GD5F2GQ4U then
        .ok (NSF_ERR_OK,
          { s1 with m_nsf_page_size_bytes := 2048, m_nsf_block_size_pages := 64,
                    m_nsf_blocks_count := 2048,
                    m_nsf_buffer := malloc mem (2048 + NSF_CMD_MAX_BYTES) })
      else .ok (NSF_ERR_UNKNOWN_DEVICE, s1)
    else .ok (NSF_ERR_UNKNOWN_DEVICE, s1)

/-- Embedding of nand_spi_flash_deinit (lines 116-123). -/
def nand_spi_flash_deinit {δ : Type} (s : State δ) : Int × State δ :=
  match s.m_nsf_buffer with
  | some _ => (NSF_ERR_OK, { s with m_nsf_buffer := none })
  | none => (NSF_ERR_OK, s)

/-- Body of the polling loop of nand_spi_flash_read_status (lines 130-133):
the delay, the two command bytes and the transfer, whose return value the
source does not look at. -/
def read_status_body {δ : Type} (s : State δ) : Res (State δ) :=
  (call_delay_us s NSF_PAGE_READ_TIME_US).bind fun s =>
  (store s 0 NSF_CMD_GET_FEATURE).bind fun s =>
  (store s 1 NSF_CMD_FEATURE_STATUS).bind fun s =>
  (call_spi_transfer s 2 1).bind fun r =>
  .ok r.2

/-- The while loop of nand_spi_flash_read_status (lines 129-135) followed by
the return of m_nsf_buffer[2]; one unit of fuel per evaluation of the loop
condition. -/
def read_status_loop {δ : Type} : Nat → State δ → Res (Nat × State δ)
  | 0, _ => .fault .outOfFuel
  | fuel + 1, s =>
    (load s 2).bind fun b =>
    if b &&& NSF_OIP_MASK ≠ 0 then
      (read_status_body s).bind fun s => read_status_loop fuel s
    else
      (load s 2).bind fun v => .ok (v, s)

/-- Embedding of nand_spi_flash_read_status (lines 126-136). -/
def nand_spi_flash_read_status {δ : Type} (fuel : Nat) (s : State δ) : Res (Nat × State δ) :=
  (store s 2 NSF_OIP_MASK).bind fun s =>
  read_status_loop fuel s

/-- Embedding of nand_spi_flash_page_read (lines 139-174). The argument
buffer is the contents of the destination; the result carries the return
value, the destination as the call leaves it, and the new state. -/
def nand_spi_flash_page_read {δ : Type} (fuel : Nat) (s : State δ)
    (row_address col_address : Nat) (buffer : List Nat) (read_len : Nat) :
    Res (Int × List Nat × State δ) :=
  -- check data len
  if read_len > s.m_nsf_page_size_bytes then .ok (NSF_ERR_DATA_TOO_BIG, buffer, s) else
  -- read page to nand cache buffer
  (store s 0 NSF_CMD_READ_CELL_TO_CACHE).bind fun s =>
  (store s 1 ((row_address &&& 0xff0000) >>> 16)).bind fun s =>
  (store s 2 ((row_address &&& 0xff00) >>> 8)).bind fun s =>
  (store s 3 row_address).bind fun s =>
  (call_spi_transfer s 4 0).bind fun r =>
  if r.1 ≠ 0 then .ok (NSF_ERROR_SPI, buffer, r.2) else
  -- check status
  (nand_spi_flash_read_status fuel r.2).bind fun p =>
  if p.1 &&& NSF_ECC_MASK = NSF_ECC_MASK then .ok (NSF_ERR_BAD_BLOCK, buffer, p.2) else
  -- read buffer from cache
  (store p.2 0 0x03).bind fun s =>
  (store s 1 ((col_address &&& 0xff00) >>> 8)).bind fun s =>
  (store s 2 col_address).bind fun s =>
  (store s 3 0x00).bind fun s =>
  (call_spi_transfer s 4 read_len).bind fun r =>
  if r.1 ≠ 0 then .ok (NSF_ERROR_SPI, buffer, r.2) else
  -- copy data to output buffer
  (copy_out r.2 4 read_len buffer).bind fun out =>
  .ok ((read_len : Int), out, r.2)

/-- Embedding of nand_spi_flash_reset_unlock (lines 177-195). -/
def nand_spi_flash_reset_unlock {δ : Type} (fuel : Nat) (s : State δ) : Res (Int × State δ) :=
  -- reset device
  (store s 0 NSF_CMD_RESET).bind fun s =>
  (call_spi_transfer s 1 0).bind fun r =>
  if r.1 ≠ 0 then .ok (NSF_ERROR_SPI, r.2) else
  (nand_spi_flash_read_status fuel r.2).bind fun p =>
  -- unlock blocks for write
  (store p.2 0 NSF_CMD_SET_FEATURE).bind fun s =>
  (store s 1 NSF_CMD_FEATURE_LOCK).bind fun s =>
  (store s 2 0x00).bind fun s =>
  (call_spi_transfer s 3 0).bind fun r =>
  if r.1 ≠ 0 then .ok (NSF_ERROR_SPI, r.2) else
  .ok (NSF_ERR_OK, r.2)

/-- Embedding of nand_spi_flash_page_write (lines 198-231). The sum in the
bounds check is computed on int, so it does not wrap; the tx_len argument of
the program-load transfer is a uint16_t, so it is reduced modulo 65536. -/
def nand_spi_flash_page_write {δ : Type} (fuel : Nat) (s : State δ)
    (row_address col_address : Nat) (data : List Nat) (data_len : Nat) :
    Res (Int × State δ) :=
  if data_len + col_address > s.m_nsf_page_size_bytes then .ok (NSF_ERR_DATA_TOO_BIG, s) else
  -- write enable
  (store s 0 NSF_CMD_WRITE_ENABLE).bind fun s =>
  (call_spi_transfer s 1 0).bind fun r =>
  if r.1 ≠ 0 then .ok (NSF_ERROR_SPI, r.2) else
  -- copy buffer to nand cache
  (store r.2 0 NSF_CMD_PROGRAM_LOAD).bind fun s =>
  (store s 1 ((col_address &&& 0xff00) >>> 8)).bind fun s =>
  (store s 2 col_address).bind fun s =>
  (copy_in s 3 data data_len).bind fun s =>
  (call_spi_transfer s ((data_len + 3) % 65536) 0).bind fun r =>
  if r.1 ≠ 0 then .ok (NSF_ERROR_SPI, r.2) else
  -- program execute 0x10
  (store r.2 0 NSF_CMD_PROGRAM_EXECUTE).bind fun s =>
  (store s 1 ((row_address &&& 0xff0000) >>> 16)).bind fun s =>
  (store s 2 ((row_address &&& 0xff00) >>> 8)).bind fun s =>
  (store s 3 row_address).bind fun s =>
  (call_spi_transfer s 4 0).bind fun r =>
  if r.1 ≠ 0 then .ok (NSF_ERROR_SPI, r.2) else
  (nand_spi_flash_read_status fuel r.2).bind fun p =>
  .ok (if p.1 &&& NSF_PRG_F_MASK ≠ 0 then NSF_ERR_ERASE else (data_len : Int), p.2)

/-- Embedding of nand_spi_flash_block_erase (lines 234-253). -/
def nand_spi_flash_block_erase {δ : Type} (fuel : Nat) (s : State δ) (row_address : Nat) :
    Res (Int × State δ) :=
  -- enable write
  (store s 0 NSF_CMD_WRITE_ENABLE).bind fun s =>
  (call_spi_transfer s 1 0).bind fun r =>
  if r.1 ≠ 0 then .ok (NSF_ERROR_SPI, r.2) else
  -- erase block
  (store r.2 0 NSF_CMD_BLOCK_ERASE).bind fun s =>
  (store s 1 ((row_address &&& 0xff0000) >>> 16)).bind fun s =>
  (store s 2 ((row_address &&& 0xff00) >>> 8)).bind fun s =>
  (store s 3 row_address).bind fun s =>
  (call_spi_transfer s 4 0).bind fun r =>
  if r.1 ≠ 0 then .ok (NSF_ERROR_SPI, r.2) else
  (nand_spi_flash_read_status fuel r.2).bind fun p =>
  .ok (if p.1 &&& NSF_ERS_F_MASK ≠ 0 then NSF_ERR_ERASE else NSF_ERR_OK, p.2)

/-! ## Observations used in the statements -/

/-- The resolved geometry: page size in bytes, block size in pages, blocks count. -/
def geometry {δ : Type} (s : State δ) : Nat × Nat × Nat :=
  (nand_spi_flash_page_size_bytes s, nand_spi_flash_block_size_pages s,
   nand_spi_flash_blocks_count s)

/-- A session is live when the scratch buffer is allocated. -/
def live {δ : Type} (s : State δ) : Prop := s.m_nsf_buffer ≠ none

/-- The identification bytes for which nand_spi_flash_init resolves a geometry:
bytes at offsets 1, 2, 3 of the identification buffer. -/
def supportedId (b1 b2 b3 : Nat) : Prop :=
  (b2 = 0x98 ∧ b3 = 0xCD) ∨
  (b2 ≠ 0x98 ∧ b1 = 0xC8 ∧ (b2 = 0xA1 ∨ b2 = 0xB1 ∨ b2 = 0xA2 ∨ b2 = 0xB2))

/-! ## Test fixtures -/

/-- A scripted transport. The world is the list of replies still to come; a
transfer takes the next reply (return value and bytes), overwrites the front
of the buffer with the bytes and returns the value. With no reply left it
returns 0 and leaves the buffer alone. The delay does nothing. -/
def scripted : Config (List (Int × List Nat)) :=
  { spi_transfer := fun d buf _ _ =>
      match d with
      | [] => (0, buf, [])
      | r :: rest => (r.1, r.2 ++ buf.drop r.2.length, rest),
    delay_us := fun d _ => d }

/-- Indeterminate memory that happens to hold zeroes. -/
def zeroMem : Indeterminate := { stack := fun _ => 0, heap := fun _ => 0 }

/-- Indeterminate memory that holds zeroes, in an environment where malloc
returns NULL. -/
def nullMem : Indeterminate := { stack := fun _ => 0, heap := fun _ => 0, malloc_null := true }

/-- A live session on the scripted transport with page size 4 and a scratch
buffer of 8 zero bytes. -/
def smallSession (script : List (Int × List Nat)) : State (List (Int × List Nat)) :=
  { m_nsf_config := some scripted, m_nsf_buffer := some [0, 0, 0, 0, 0, 0, 0, 0],
    m_nsf_page_size_bytes := 4, m_nsf_block_size_pages := 64, m_nsf_blocks_count := 1024,
    dev := script, trace := [] }

/-- The state after n rounds of the polling loop body of
nand_spi_flash_read_status. -/
def polls {δ : Type} : Nat → State δ → Res (State δ)
  | 0, s => .ok s
  | n + 1, s => (read_status_body s).bind (polls n)

/-- The primitive calls made by n rounds of the polling loop: each round is one
delay of 115 microseconds followed by one transfer writing 0x0F, 0xC0 and
reading one byte. -/
def pollEvents : Nat → List Event
  | 0 => []
  | n + 1 => Event.delay 115 :: Event.spi [0x0F, 0xC0] 1 :: pollEvents n


/-- A script for the scripted transport: two status reads with the
operation-in-progress bit set, then one with it clear. -/
def busyTwice : List (Int × List Nat) :=
  [(0, [0x0F, 0xC0, 0x01]), (0, [0x0F, 0xC0, 0x03]), (0, [0x0F, 0xC0, 0x20])]

/-- The load-page step of nand_spi_flash_page_read (lines 147-152): the four
command bytes and the transfer; the result is the return value of the transfer. -/
def page_read_load {δ : Type} (s : State δ) (row_address : Nat) : Res (Int × State δ) :=
  (store s 0 NSF_CMD_READ_CELL_TO_CACHE).bind fun s =>
  (store s 1 ((row_address &&& 0xff0000) >>> 16)).bind fun s =>
  (store s 2 ((row_address &&& 0xff00) >>> 8)).bind fun s =>
  (store s 3 row_address).bind fun s =>
  call_spi_transfer s 4 0

/-- The read-from-cache step of nand_spi_flash_page_read (lines 161-173). -/
def page_read_fetch {δ : Type} (s : State δ) (col_address : Nat) (buffer : List Nat)
    (read_len : Nat) : Res (Int × List Nat × State δ) :=
  (store s 0 0x03).bind fun s =>
  (store s 1 ((col_address &&& 0xff00) >>> 8)).bind fun s =>
  (store s 2 col_address).bind fun s =>
  (store s 3 0x00).bind fun s =>
  (call_spi_transfer s 4 read_len).bind fun r =>
  if r.1 ≠ 0 then .ok (NSF_ERROR_SPI, buffer, r.2) else
  (copy_out r.2 4 read_len buffer).bind fun out =>
  .ok ((read_len : Int), out, r.2)


/-- The bytes written on the link by a command carrying a row address: the
opcode followed by the row address, most significant of three bytes first. -/
def rowCommand (opcode row_address : Nat) : List Nat :=
  [opcode, ((row_address &&& 0xff0000) >>> 16) % 256, ((row_address &&& 0xff00) >>> 8) % 256,
   row_address % 256]

/-- The command phase of nand_spi_flash_page_write (lines 205-227): write
enable, program load and program execute. The result is 0 when the three
transfers returned 0, and NSF_ERROR_SPI as soon as one of them did not. -/
def page_write_commands {δ : Type} (s : State δ) (row_address col_address : Nat)
    (data : List Nat) (data_len : Nat) : Res (Int × State δ) :=
  (store s 0 NSF_CMD_WRITE_ENABLE).bind fun s =>
  (call_spi_transfer s 1 0).bind fun r =>
  if r.1 ≠ 0 then .ok (NSF_ERROR_SPI, r.2) else
  (store r.2 0 NSF_CMD_PROGRAM_LOAD).bind fun s =>
  (store s 1 ((col_address &&& 0xff00) >>> 8)).bind fun s =>
  (store s 2 col_address).bind fun s =>
  (copy_in s 3 data data_len).bind fun s =>
  (call_spi_transfer s ((data_len + 3) % 65536) 0).bind fun r =>
  if r.1 ≠ 0 then .ok (NSF_ERROR_SPI, r.2) else
  (store r.2 0 NSF_CMD_PROGRAM_EXECUTE).bind fun s =>
  (store s 1 ((row_address &&& 0xff0000) >>> 16)).bind fun s =>
  (store s 2 ((row_address &&& 0xff00) >>> 8)).bind fun s =>
  (store s 3 row_address).bind fun s =>
  (call_spi_transfer s 4 0).bind fun r =>
  if r.1 ≠ 0 then .ok (NSF_ERROR_SPI, r.2) else .ok (0, r.2)

/-- The command phase of nand_spi_flash_block_erase (lines 236-249): write
enable and block erase. The result is 0 when both transfers returned 0, and
NSF_ERROR_SPI as soon as one of them did not. -/
def block_erase_commands {δ : Type} (s : State δ) (row_address : Nat) : Res (Int × State δ) :=
  (store s 0 NSF_CMD_WRITE_ENABLE).bind fun s =>
  (call_spi_transfer s 1 0).bind fun r =>
  if r.1 ≠ 0 then .ok (NSF_ERROR_SPI, r.2) else
  (store r.2 0 NSF_CMD_BLOCK_ERASE).bind fun s =>
  (store s 1 ((row_address &&& 0xff0000) >>> 16)).bind fun s =>
  (store s 2 ((row_address &&& 0xff00) >>> 8)).bind fun s =>
  (store s 3 row_address).bind fun s =>
  (call_spi_transfer s 4 0).bind fun r =>
  if r.1 ≠ 0 then .ok (NSF_ERROR_SPI, r.2) else .ok (0, r.2)

/-- A script for the scripted transport: n command exchanges that succeed,
then one status exchange with the given return value delivering the given
byte. -/
def commandsThenStatus (n : Nat) (rc : Int) (st : Nat) : List (Int × List Nat) :=
  List.replicate n (0, []) ++ [(rc, [0x0F, 0xC0, st])]

/-- A list of byte values. -/
def Bytes (l : List Nat) : Prop := ∀ b ∈ l, b < 256

/-- State of the fake device of the round-trip scenario: its cache register
and the contents of its pages, by row address. -/
structure FakeDevice where
  cache : List Nat
  pages : Nat → List Nat

/-- The transfer primitive of the fake device without bit errors. It looks at
the opcode in the first byte of the buffer: program load stores the payload
(the written bytes after the three header bytes) in the cache at the column
address; program execute commits the cache to the page addressed by the three
row bytes; load page copies the addressed page into the cache; read from
cache returns the cache contents from the column address on; get feature
reports a clear status byte. Every transfer returns 0. -/
def fakeTransfer (d : FakeDevice) (buf : List Nat) (tx_len rx_len : Nat) :
    Int × List Nat × FakeDevice :=
  let col := buf.getD 1 0 * 256 + buf.getD 2 0
  let row := buf.getD 1 0 * 65536 + buf.getD 2 0 * 256 + buf.getD 3 0
  if buf.getD 0 0 = NSF_CMD_PROGRAM_LOAD then
    let payload := (buf.take tx_len).drop 3
    (0, buf, { d with cache := d.cache.take col ++ payload ++ d.cache.drop (col + payload.length) })
  else if buf.getD 0 0 = NSF_CMD_PROGRAM_EXECUTE then
    (0, buf, { d with pages := fun r => if r = row then d.cache else d.pages r })
  else if buf.getD 0 0 = NSF_CMD_READ_CELL_TO_CACHE then
    (0, buf, { d with cache := d.pages row })
  else if buf.getD 0 0 = 0x03 then
    (0, buf.take tx_len ++ (d.cache.drop col).take rx_len ++ buf.drop (tx_len + rx_len), d)
  else if buf.getD 0 0 = NSF_CMD_GET_FEATURE then
    (0, buf.take tx_len ++ [0] ++ buf.drop (tx_len + 1), d)
  else (0, buf, d)

/-- The config of a session on the fake device; its delay does nothing. -/
def fakeConfig : Config FakeDevice :=
  { spi_transfer := fakeTransfer, delay_us := fun d _ => d }

/-- The row address carried by the three row bytes of a command. -/
def rowKey (row_address : Nat) : Nat :=
  ((row_address &&& 0xff0000) >>> 16) % 256 * 65536 + ((row_address &&& 0xff00) >>> 8) % 256 * 256
    + row_address % 256


/-- A live session on the fake device with page size 4, an erased device and a
scratch buffer of 8 zero bytes. -/
def fakeSession : State FakeDevice :=
  { m_nsf_config := some fakeConfig, m_nsf_buffer := some [0, 0, 0, 0, 0, 0, 0, 0],
    m_nsf_page_size_bytes := 4, m_nsf_block_size_pages := 64, m_nsf_blocks_count := 1024,
    dev := { cache := [], pages := fun _ => [] }, trace := [] }

/-- A transport that follows the contract of the identification exchange: a
transfer leaves the written region of the buffer alone, puts the two response
bytes r2 and r3 at offsets 2 and 3 and returns 0. The world is trivial. -/
def answering (r2 r3 : Nat) : Config Unit :=
  { spi_transfer := fun d buf _ _ => (0, buf.take 2 ++ [r2, r3] ++ buf.drop 4, d),
    delay_us := fun d _ => d }

/-- Indeterminate memory whose stack cells happen to hold 0xC8. -/
def c8Mem : Indeterminate := { stack := fun _ => 0xC8, heap := fun _ => 0 }

/-- The transport contract at the identification exchange of
nand_spi_flash_init: the call transfer(m_buffer, 2, 2) returns rc, leaves
offsets 0 and 1 of the local array as they were and puts the two response
bytes r2 and r3 at offsets 2 and 3. -/
def followsIdContract {δ : Type} (config : Config δ) (d : δ) (mem : Indeterminate) (rc : Int)
    (r2 r3 : Nat) : Prop :=
  (exchange config d (idBuffer mem) 2 2).1 = rc ∧
  (exchange config d (idBuffer mem) 2 2).2.1 = [NSF_CMD_READ_ID, mem.stack 1 % 256, r2, r3]

/-- The outcome of a call of nand_spi_flash_init: its return code and the
geometry the accessors report afterwards. -/
def initOutcome {δ : Type} (x : Res (Int × State δ)) : Option (Int × Nat × Nat × Nat) :=
  match x with
  | .ok r => some (r.1, geometry r.2)
  | .fault _ => none

/-- What the page and block operations leave alone between two states: the
stored config, the geometry, and the allocation of the scratch buffer (whether
it is allocated, and its length). -/
def sameSession {δ : Type} (s s1 : State δ) : Prop :=
  s1.m_nsf_config = s.m_nsf_config ∧ geometry s1 = geometry s ∧
  s1.m_nsf_buffer.map List.length = s.m_nsf_buffer.map List.length

/-- A piece of driver code started in a state that is the same session as s0
ends, if it returns, in a state that is the same session as s0; the state is
read off the result by the projection. -/
def Keeps {δ α : Type} (s0 : State δ) (x : Res α) (proj : α → State δ) : Prop :=
  ∀ a, x = .ok a → sameSession s0 (proj a)

/-- States reachable from the initial state by a sequence of calls of the
driver's functions in which no nand_spi_flash_init returns OK. A call that
faults reaches no state. -/
inductive UninitReachable {δ : Type} (d : δ) : State δ → Prop where
  | start : UninitReachable d (initialState d)
  | init (s s1 : State δ) (config : Config δ) (mem : Indeterminate) (r : Int) :
      UninitReachable d s → nand_spi_flash_init s config mem = .ok (r, s1) → r ≠ NSF_ERR_OK →
      UninitReachable d s1
  | deinit (s : State δ) :
      UninitReachable d s → UninitReachable d (nand_spi_flash_deinit s).2
  | read_status (s s1 : State δ) (fuel st : Nat) :
      UninitReachable d s → nand_spi_flash_read_status fuel s = .ok (st, s1) →
      UninitReachable d s1
  | page_read (s s1 : State δ) (fuel row_address col_address : Nat) (buffer : List Nat)
      (read_len : Nat) (r : Int) (out : List Nat) :
      UninitReachable d s →
      nand_spi_flash_page_read fuel s row_address col_address buffer read_len = .ok (r, out, s1) →
      UninitReachable d s1
  | page_write (s s1 : State δ) (fuel row_address col_address : Nat) (data : List Nat)
      (data_len : Nat) (r : Int) :
      UninitReachable d s →
      nand_spi_flash_page_write fuel s row_address col_address data data_len = .ok (r, s1) →
      UninitReachable d s1
  | block_erase (s s1 : State δ) (fuel row_address : Nat) (r : Int) :
      UninitReachable d s → nand_spi_flash_block_erase fuel s row_address = .ok (r, s1) →
      UninitReachable d s1
  | reset_unlock (s s1 : State δ) (fuel : Nat) (r : Int) :
      UninitReachable d s → nand_spi_flash_reset_unlock fuel s = .ok (r, s1) →
      UninitReachable d s1

/-- A session stored on a config whose scratch buffer is allocated with L
bytes. -/
def Shape {δ : Type} (L : Nat) (s : State δ) : Prop :=
  s.m_nsf_config ≠ none ∧ s.m_nsf_buffer.map List.length = some L

/-- A run that stays within its arrays: it returns, or it runs out of loop
fuel; it neither dereferences a NULL pointer nor indexes outside an array. -/
def inBounds {α : Type} (x : Res α) : Prop :=
  ∀ e, x = .fault e → e = Fault.outOfFuel

/-- The reset step of nand_spi_flash_reset_unlock (lines 179-181): the opcode
and the transfer; the result is the return value of the transfer. -/
def reset_command {δ : Type} (s : State δ) : Res (Int × State δ) :=
  (store s 0 NSF_CMD_RESET).bind fun s =>
  call_spi_transfer s 1 0

/-- The unlock step of nand_spi_flash_reset_unlock (lines 186-190): the three
set-feature bytes and the transfer. -/
def unlock_command {δ : Type} (s : State δ) : Res (Int × State δ) :=
  (store s 0 NSF_CMD_SET_FEATURE).bind fun s =>
  (store s 1 NSF_CMD_FEATURE_LOCK).bind fun s =>
  (store s 2 0x00).bind fun s =>
  call_spi_transfer s 3 0

/-- The read-from-cache exchange of nand_spi_flash_page_read (lines 161-166):
the four command bytes and the transfer; the result is the return value of
the transfer. -/
def page_read_fetch_command {δ : Type} (s : State δ) (col_address read_len : Nat) :
    Res (Int × State δ) :=
  (store s 0 0x03).bind fun s =>
  (store s 1 ((col_address &&& 0xff00) >>> 8)).bind fun s =>
  (store s 2 col_address).bind fun s =>
  (store s 3 0x00).bind fun s =>
  call_spi_transfer s 4 read_len

/-! ## Basic lemmas -/

@[simp]
theorem Res.bind_ok {α β : Type} (a : α) (f : α → Res β) :
    (Res.ok a).bind f = f a := rfl

@[simp]
theorem Res.bind_fault {α β : Type} (e : Fault) (f : α → Res β) :
    (Res.fault e : Res α).bind f = Res.fault e := rfl

theorem Res.bind_assoc {α β γ : Type} (x : Res α) (f : α → Res β) (g : β → Res γ) :
    (x.bind f).bind g = x.bind (fun a => (f a).bind g) := by
  cases x <;> rfl

theorem Res.bind_ite {α β : Type} (c : Prop) [Decidable c] (x y : Res α) (f : α → Res β) :
    (if c then x else y).bind f = if c then x.bind f else y.bind f := by
  split <;> rfl

/-- What nand_spi_flash_init does when no session is live and the identification
exchange returns 0 leaving the buffer m and the world d. -/
theorem init_eq_of_exchange {δ : Type} (s : State δ) (config : Config δ)
    (mem : Indeterminate) (m : List Nat) (d : δ)
    (hs : s.m_nsf_buffer = none)
    (hx : exchange config s.dev (idBuffer mem) 2 2 = (0, m, d)) :
    nand_spi_flash_init s config mem =
          (let s1 : State δ := { s with m_nsf_config := some config, dev := d,
                                        trace := s.trace ++ [Event.spi ((idBuffer mem).take 2) 2] }
           if m.getD 2 0 = 0x98 then
             if m.getD 3 0 = 0xCD then
               .ok (NSF_ERR_OK,
                 { s1 with m_nsf_page_size_bytes := 4096, m_nsf_block_size_pages := 64,
                           m_nsf_blocks_count := 2048,
                           m_nsf_buffer := malloc mem (4096 + NSF_CMD_MAX_BYTES) })
             else .ok (NSF_ERR_UNKNOWN_DEVICE, s1)
           else if m.getD 1 0 = 0xC8 then
             if m.getD 2 0 = 0xA1 ∨ m.getD 2 0 = 0xB1 then
               .ok (NSF_ERR_OK,
                 { s1 with m_nsf_page_size_bytes := 2048, m_nsf_block_size_pages := 64,
                           m_nsf_blocks_count := 1024,
                           m_nsf_buffer := malloc mem (2048 + NSF_CMD_MAX_BYTES) })
             else if m.getD 2 0 = 0xA2 ∨ m.getD 2 0 = 0xB2 then
               .ok (NSF_ERR_OK,
                 { s1 with m_nsf_page_size_bytes := 2048, m_nsf_block_size_pages := 64,
                           m_nsf_blocks_count := 2048,
                           m_nsf_buffer := malloc mem (2048 + NSF_CMD_MAX_BYTES) })
             else .ok (NSF_ERR_UNKNOWN_DEVICE, s1)
           else .ok (NSF_ERR_UNKNOWN_DEVICE, s1)) := by
  simp only [nand_spi_flash_init, hs, hx, NSF_DEVICE_TOSHIBA_TC58CVx,
    NSF_DEVICE_TC58CVG2S0HxAIx, NSF_DEVICE_GIGADEVICE_GD5FxGQ4x, NSF_DEVICE_GD5F1GQ4R,
    NSF_DEVICE_GD5F1GQ4U, NSF_DEVICE_GD5F2GQ4R, NSF_DEVICE_GD5F2GQ4U, ne_eq,
    not_true_eq_false, if_false]

/-! ## C1: device resolution -/

/-- C1. Device resolution in nand_spi_flash_init: when no session is live and
the identification exchange returns 0 leaving the buffer m, the call returns
OK with geometry (4096, 64, 2048) if m[2] = 0x98 and m[3] = 0xCD; with
(2048, 64, 1024) if m[2] is not 0x98, m[1] = 0xC8 and m[2] is 0xA1 or 0xB1;
with (2048, 64, 2048) if m[2] is not 0x98, m[1] = 0xC8 and m[2] is 0xA2 or
0xB2; for every other combination it returns UnknownDevice, the geometry is
as before and no session is live. -/
theorem init_resolves_geometry {δ : Type} (s : State δ) (config : Config δ)
    (mem : Indeterminate) (m : List Nat) (d : δ)
    (hs : s.m_nsf_buffer = none)
    (hx : exchange config s.dev (idBuffer mem) 2 2 = (0, m, d)) :
    (m.getD 2 0 = 0x98 ∧ m.getD 3 0 = 0xCD →
      ∃ s1, nand_spi_flash_init s config mem = .ok (NSF_ERR_OK, s1) ∧
        geometry s1 = (4096, 64, 2048)) ∧
    (m.getD 2 0 ≠ 0x98 ∧ m.getD 1 0 = 0xC8 ∧ (m.getD 2 0 = 0xA1 ∨ m.getD 2 0 = 0xB1) →
      ∃ s1, nand_spi_flash_init s config mem = .ok (NSF_ERR_OK, s1) ∧
        geometry s1 = (2048, 64, 1024)) ∧
    (m.getD 2 0 ≠ 0x98 ∧ m.getD 1 0 = 0xC8 ∧ (m.getD 2 0 = 0xA2 ∨ m.getD 2 0 = 0xB2) →
      ∃ s1, nand_spi_flash_init s config mem = .ok (NSF_ERR_OK, s1) ∧
        geometry s1 = (2048, 64, 2048)) ∧
    (¬ supportedId (m.getD 1 0) (m.getD 2 0) (m.getD 3 0) →
      ∃ s1, nand_spi_flash_init s config mem = .ok (NSF_ERR_UNKNOWN_DEVICE, s1) ∧
        geometry s1 = geometry s ∧ s1.m_nsf_buffer = none) := by
  rw [init_eq_of_exchange s config mem m d hs hx]
  refine ⟨?_, ?_, ?_, ?_⟩
  · rintro ⟨h2, h3⟩
    simp only [if_pos h2, if_pos h3]
    exact ⟨_, rfl, rfl⟩
  · rintro ⟨h2, h1, h⟩
    simp only [if_neg h2, if_pos h1, if_pos h]
    exact ⟨_, rfl, rfl⟩
  · rintro ⟨h2, h1, h⟩
    have hn : ¬ (m.getD 2 0 = 0xA1 ∨ m.getD 2 0 = 0xB1) := by
      rcases h with h | h <;> rw [h] <;> decide
    simp only [if_neg h2, if_pos h1, if_neg hn, if_pos h]
    exact ⟨_, rfl, rfl⟩
  · intro hns
    simp only [supportedId, not_or, not_and] at hns
    obtain ⟨ha, hb⟩ := hns
    by_cases h2 : m.getD 2 0 = 0x98
    · have h3 := ha h2
      simp only [if_pos h2, if_neg h3]
      exact ⟨_, rfl, rfl, hs⟩
    · by_cases h1 : m.getD 1 0 = 0xC8
      · have h := hb h2 h1
        have hn1 : ¬ (m.getD 2 0 = 0xA1 ∨ m.getD 2 0 = 0xB1) := by
          rintro (h5 | h5)
          · exact h.1 h5
          · exact h.2.1 h5
        have hn2 : ¬ (m.getD 2 0 = 0xA2 ∨ m.getD 2 0 = 0xB2) := by
          rintro (h5 | h5)
          · exact h.2.2.1 h5
          · exact h.2.2.2 h5
        simp only [if_neg h2, if_pos h1, if_neg hn1, if_neg hn2]
        exact ⟨_, rfl, rfl, hs⟩
      · simp only [if_neg h2, if_neg h1]
        exact ⟨_, rfl, rfl, hs⟩

/-- Witness for C1: a scripted device answering the identification with
0x98, 0xCD resolves to (4096, 64, 2048). -/
theorem init_resolves_geometry_witness :
    ∃ s1, nand_spi_flash_init (initialState [((0 : Int), [0x9F, 0, 0x98, 0xCD])]) scripted zeroMem
        = .ok (NSF_ERR_OK, s1) ∧ geometry s1 = (4096, 64, 2048) :=
  (init_resolves_geometry (initialState [((0 : Int), [0x9F, 0, 0x98, 0xCD])]) scripted zeroMem
    [0x9F, 0, 0x98, 0xCD] [] rfl (by rfl)).1 ⟨rfl, rfl⟩

/-! ## C2: double initialisation and re-initialisation -/

theorem init_supported {δ : Type} (s : State δ) (config : Config δ)
    (mem : Indeterminate) (m : List Nat) (d : δ)
    (hs : s.m_nsf_buffer = none)
    (hm : mem.malloc_null = false)
    (hx : exchange config s.dev (idBuffer mem) 2 2 = (0, m, d))
    (hid : supportedId (m.getD 1 0) (m.getD 2 0) (m.getD 3 0)) :
    ∃ s1, nand_spi_flash_init s config mem = .ok (NSF_ERR_OK, s1) ∧ live s1 := by
  rw [init_eq_of_exchange s config mem m d hs hx]
  rcases hid with ⟨h2, h3⟩ | ⟨h2, h1, h⟩
  · simp only [if_pos h2, if_pos h3]
    exact ⟨_, rfl, by simp [live, malloc, hm]⟩
  · by_cases ha : m.getD 2 0 = 0xA1 ∨ m.getD 2 0 = 0xB1
    · simp only [if_neg h2, if_pos h1, if_pos ha]
      exact ⟨_, rfl, by simp [live, malloc, hm]⟩
    · have hb : m.getD 2 0 = 0xA2 ∨ m.getD 2 0 = 0xB2 := by
        rcases h with h | h | h | h
        · exact absurd (Or.inl h) ha
        · exact absurd (Or.inr h) ha
        · exact Or.inl h
        · exact Or.inr h
      simp only [if_neg h2, if_pos h1, if_neg ha, if_pos hb]
      exact ⟨_, rfl, by simp [live, malloc, hm]⟩

/-- What holds of the two halves of C2. While a session is live
nand_spi_flash_init returns AlreadyInitialized and the whole state (stored
config, geometry, scratch buffer, world and trace of transport calls) is
unchanged. After nand_spi_flash_deinit an init against a supported device
whose identification exchange succeeds returns OK, and a session is live again
provided malloc returns a block. -/
theorem init_live_rejected_and_reinit_allocated {δ : Type} (s : State δ) (hl : live s) :
    (∀ (config : Config δ) (mem : Indeterminate),
      nand_spi_flash_init s config mem = .ok (NSF_ERR_ALREADY_INITED, s)) ∧
    (∀ (config : Config δ) (mem : Indeterminate) (m : List Nat) (d : δ),
      mem.malloc_null = false →
      exchange config (nand_spi_flash_deinit s).2.dev (idBuffer mem) 2 2 = (0, m, d) →
      supportedId (m.getD 1 0) (m.getD 2 0) (m.getD 3 0) →
      ∃ s1, nand_spi_flash_init (nand_spi_flash_deinit s).2 config mem = .ok (NSF_ERR_OK, s1) ∧
        live s1) := by
  constructor
  · intro config mem
    unfold live at hl
    cases hb : s.m_nsf_buffer with
    | none => exact absurd hb hl
    | some b => simp only [nand_spi_flash_init, hb]
  · intro config mem m d hm hx hid
    have hn : (nand_spi_flash_deinit s).2.m_nsf_buffer = none := by
      unfold nand_spi_flash_deinit
      cases hb : s.m_nsf_buffer <;> simp [hb]
    exact init_supported _ config mem m d hn hm hx hid

/-- C2, the code at the failing input. A live session is deinitialised and
nand_spi_flash_init is called against a device that answers the
identification with 0x98, 0xCD over a transport that returns 0, in an
environment where malloc returns NULL. The init returns OK and sets the
geometry (4096, 64, 2048), but the scratch pointer is NULL: no session is
live. A further init without a deinit in between is then not rejected as
AlreadyInitialized but runs the identification again and returns OK, and a
block erase dereferences the NULL scratch pointer. -/
theorem reinit_ok_without_session :
    live (smallSession [(0, [0x9F, 0, 0x98, 0xCD]), (0, [0x9F, 0, 0x98, 0xCD])]) ∧
    nand_spi_flash_init
        (nand_spi_flash_deinit
          (smallSession [(0, [0x9F, 0, 0x98, 0xCD]), (0, [0x9F, 0, 0x98, 0xCD])])).2
        scripted nullMem
      = .ok (NSF_ERR_OK,
          { m_nsf_config := some scripted, m_nsf_buffer := none,
            m_nsf_page_size_bytes := 4096, m_nsf_block_size_pages := 64,
            m_nsf_blocks_count := 2048, dev := [(0, [0x9F, 0, 0x98, 0xCD])],
            trace := [Event.spi [0x9F, 0] 2] }) ∧
    ¬ live ({ m_nsf_config := some scripted, m_nsf_buffer := none,
              m_nsf_page_size_bytes := 4096, m_nsf_block_size_pages := 64,
              m_nsf_blocks_count := 2048, dev := [(0, [0x9F, 0, 0x98, 0xCD])],
              trace := [Event.spi [0x9F, 0] 2] } : State (List (Int × List Nat))) ∧
    (∃ s2, nand_spi_flash_init
        ({ m_nsf_config := some scripted, m_nsf_buffer := none,
           m_nsf_page_size_bytes := 4096, m_nsf_block_size_pages := 64,
           m_nsf_blocks_count := 2048, dev := [(0, [0x9F, 0, 0x98, 0xCD])],
           trace := [Event.spi [0x9F, 0] 2] } : State (List (Int × List Nat)))
        scripted nullMem = .ok (NSF_ERR_OK, s2)) ∧
    nand_spi_flash_block_erase 3
        ({ m_nsf_config := some scripted, m_nsf_buffer := none,
           m_nsf_page_size_bytes := 4096, m_nsf_block_size_pages := 64,
           m_nsf_blocks_count := 2048, dev := [(0, [0x9F, 0, 0x98, 0xCD])],
           trace := [Event.spi [0x9F, 0] 2] } : State (List (Int × List Nat))) 0
      = .fault Fault.nullDeref ∧
    NSF_ERR_OK = 0 ∧ NSF_ERR_ALREADY_INITED = -2 :=
  ⟨by simp [live, smallSession], by rfl, by simp [live], ⟨_, by rfl⟩, by rfl, rfl, rfl⟩

/-! ## C3, C4: length checks -/

/-- C3. A page read with read_len greater than page_size_bytes returns
DataTooBig; the state is returned as it was (no transport exchange, no delay,
scratch buffer unchanged) and the destination buffer is unchanged. -/
theorem page_read_data_too_big {δ : Type} (fuel : Nat) (s : State δ)
    (row_address col_address : Nat) (buffer : List Nat) (read_len : Nat)
    (h : read_len > nand_spi_flash_page_size_bytes s) :
    nand_spi_flash_page_read fuel s row_address col_address buffer read_len
      = .ok (NSF_ERR_DATA_TOO_BIG, buffer, s) := by
  unfold nand_spi_flash_page_size_bytes at h
  simp only [nand_spi_flash_page_read, if_pos h]

/-- Witness for C3: reading 5 bytes from a session whose page size is 4. -/
theorem page_read_data_too_big_witness :
    nand_spi_flash_page_read 0 (smallSession []) 0 0 [] 5
      = .ok (NSF_ERR_DATA_TOO_BIG, [], smallSession []) :=
  page_read_data_too_big 0 (smallSession []) 0 0 [] 5 (by decide)

/-- C4. A page write with 16-bit col_address and data_len whose sum, taken
without wrapping, exceeds page_size_bytes returns DataTooBig and the state is
returned as it was (no transport exchange). -/
theorem page_write_data_too_big {δ : Type} (fuel : Nat) (s : State δ)
    (row_address col_address : Nat) (data : List Nat) (data_len : Nat)
    (hc : col_address < 65536) (hd : data_len < 65536)
    (h : col_address + data_len > nand_spi_flash_page_size_bytes s) :
    nand_spi_flash_page_write fuel s row_address col_address data data_len
      = .ok (NSF_ERR_DATA_TOO_BIG, s) := by
  unfold nand_spi_flash_page_size_bytes at h
  have h1 : data_len + col_address > s.m_nsf_page_size_bytes := by omega
  simp only [nand_spi_flash_page_write, if_pos h1]

/-- Witness for C4: col_address 0xFFFF with data_len 2 is rejected although
the sum is 1 modulo 65536. -/
theorem page_write_data_too_big_witness :
    nand_spi_flash_page_write 0 (smallSession []) 0 0xFFFF [7, 7] 2
      = .ok (NSF_ERR_DATA_TOO_BIG, smallSession []) :=
  page_write_data_too_big 0 (smallSession []) 0 0xFFFF [7, 7] 2 (by decide) (by decide)
    (by decide)

/-! ## C5: status polling -/

theorem read_status_body_eq {δ : Type} (s : State δ) (cfg : Config δ) (b0 b1 b2 : Nat)
    (rest : List Nat) (hc : s.m_nsf_config = some cfg)
    (hb : s.m_nsf_buffer = some (b0 :: b1 :: b2 :: rest)) :
    read_status_body s =
      .ok { s with
        m_nsf_buffer := some (exchange cfg (cfg.delay_us s.dev 115)
            (0x0F :: 0xC0 :: b2 :: rest) 2 1).2.1,
        dev := (exchange cfg (cfg.delay_us s.dev 115) (0x0F :: 0xC0 :: b2 :: rest) 2 1).2.2,
        trace := s.trace ++ [Event.delay 115, Event.spi [0x0F, 0xC0] 1] } := by
  obtain ⟨c, b, p, bs, bc, d, tr⟩ := s
  simp only at hc hb
  subst hc hb
  simp [read_status_body, call_delay_us, store, call_spi_transfer, NSF_PAGE_READ_TIME_US,
    NSF_CMD_GET_FEATURE, NSF_CMD_FEATURE_STATUS]

theorem read_status_body_ok_inv {δ : Type} (s s1 : State δ) (h : read_status_body s = .ok s1) :
    ∃ cfg b0 b1 b2 rest, s.m_nsf_config = some cfg ∧
      s.m_nsf_buffer = some (b0 :: b1 :: b2 :: rest) := by
  obtain ⟨c, b, p, bs, bc, d, tr⟩ := s
  cases c with
  | none => simp [read_status_body, call_delay_us] at h
  | some cfg =>
    cases b with
    | none => simp [read_status_body, call_delay_us, store] at h
    | some buf =>
      match buf, h with
      | [], h => simp [read_status_body, call_delay_us, store] at h
      | [_], h => simp [read_status_body, call_delay_us, store] at h
      | [_, _], h => simp [read_status_body, call_delay_us, store, call_spi_transfer] at h
      | b0 :: b1 :: b2 :: rest, _ => exact ⟨cfg, b0, b1, b2, rest, rfl, rfl⟩

theorem read_status_body_trace {δ : Type} (s s1 : State δ) (h : read_status_body s = .ok s1) :
    s1.trace = s.trace ++ pollEvents 1 := by
  obtain ⟨cfg, b0, b1, b2, rest, hc, hb⟩ := read_status_body_ok_inv s s1 h
  rw [read_status_body_eq s cfg b0 b1 b2 rest hc hb] at h
  injection h with h
  subst h
  rfl

theorem Res.bind_eq_ok {α β : Type} (x : Res α) (f : α → Res β) (b : β)
    (h : x.bind f = .ok b) : ∃ a, x = .ok a ∧ f a = .ok b := by
  cases x with
  | ok a => exact ⟨a, rfl, h⟩
  | fault e => simp at h

theorem pollEvents_add (m n : Nat) : pollEvents (m + n) = pollEvents m ++ pollEvents n := by
  induction m with
  | zero => simp [pollEvents]
  | succ m ih =>
    have : m + 1 + n = (m + n) + 1 := by omega
    rw [this]
    simp [pollEvents, ih]

theorem polls_trace {δ : Type} (n : Nat) : ∀ (s s1 : State δ), polls n s = .ok s1 →
    s1.trace = s.trace ++ pollEvents n := by
  induction n with
  | zero =>
    intro s s1 h
    simp only [polls] at h
    injection h with h
    subst h
    simp [pollEvents]
  | succ n ih =>
    intro s s1 h
    simp only [polls] at h
    obtain ⟨s2, h2, h3⟩ := Res.bind_eq_ok _ _ _ h
    rw [ih s2 s1 h3, read_status_body_trace s s2 h2, List.append_assoc]
    have : n + 1 = 1 + n := by omega
    rw [this, pollEvents_add]

theorem read_status_loop_polls {δ : Type} (K : Nat) : ∀ (s0 sK : State δ) (b0 st fuel : Nat),
    load s0 2 = .ok b0 → b0 &&& NSF_OIP_MASK ≠ 0 →
    (∀ i, 1 ≤ i → i ≤ K →
      ∃ si b, polls i s0 = .ok si ∧ load si 2 = .ok b ∧ b &&& NSF_OIP_MASK ≠ 0) →
    polls (K + 1) s0 = .ok sK → load sK 2 = .ok st → st &&& NSF_OIP_MASK = 0 →
    K + 2 ≤ fuel → read_status_loop fuel s0 = .ok (st, sK) := by
  induction K with
  | zero =>
    intro s0 sK b0 st fuel hb0 hbusy0 _ hdone hst hclear hfuel
    obtain ⟨f, rfl⟩ : ∃ f, fuel = f + 2 := ⟨fuel - 2, by omega⟩
    simp only [polls] at hdone
    obtain ⟨s1, h1, h2⟩ := Res.bind_eq_ok _ _ _ hdone
    injection h2 with h2
    subst h2
    simp [read_status_loop, hb0, hbusy0, h1, hst, hclear]
  | succ K ih =>
    intro s0 sK b0 st fuel hb0 hbusy0 hbusy hdone hst hclear hfuel
    obtain ⟨f, rfl⟩ : ∃ f, fuel = f + 1 := ⟨fuel - 1, by omega⟩
    have hdone1 := hdone
    rw [polls] at hdone1
    obtain ⟨s1, h1, h2⟩ := Res.bind_eq_ok _ _ _ hdone1
    have hstep : ∀ i, polls (i + 1) s0 = polls i s1 := by
      intro i
      rw [polls, h1, Res.bind_ok]
    obtain ⟨si, b1, hp1, hl1, hb1⟩ := hbusy 1 (le_refl 1) (by omega)
    rw [hstep 0] at hp1
    simp only [polls] at hp1
    injection hp1 with hp1
    subst hp1
    have := ih s1 sK b1 st f hl1 hb1
      (fun i hi1 hiK => by
        obtain ⟨sj, b, hp, hl, hb⟩ := hbusy (i + 1) (by omega) (by omega)
        rw [hstep i] at hp
        exact ⟨sj, b, hp, hl, hb⟩)
      h2 hst hclear (by omega)
    simp [read_status_loop, hb0, hbusy0, h1, this]

/-- C5. Status polling: let s0 be the state on entry to the loop (scratch
offset 2 set to the in-progress mask). If after each of the first K rounds of
the loop body (delay, command bytes, status exchange) scratch offset 2 has
the operation-in-progress bit set, and after round K+1 it holds st with the
bit clear, then with K+2 units of fuel or more nand_spi_flash_read_status
returns st in the state reached after exactly K+1 rounds, and the calls it
made are exactly K+1 times a delay of 115 microseconds followed by a
transfer writing 0x0F, 0xC0 and reading one byte. -/
theorem read_status_polls_until_clear {δ : Type} (K fuel : Nat) (s s0 sK : State δ) (st : Nat)
    (h0 : store s 2 NSF_OIP_MASK = .ok s0)
    (hbusy : ∀ i, 1 ≤ i → i ≤ K →
      ∃ si b, polls i s0 = .ok si ∧ load si 2 = .ok b ∧ b &&& NSF_OIP_MASK ≠ 0)
    (hdone : polls (K + 1) s0 = .ok sK) (hst : load sK 2 = .ok st)
    (hclear : st &&& NSF_OIP_MASK = 0) (hfuel : K + 2 ≤ fuel) :
    nand_spi_flash_read_status fuel s = .ok (st, sK) ∧
    sK.trace = s.trace ++ pollEvents (K + 1) := by
  have hl0 : load s0 2 = .ok 1 ∧ s0.trace = s.trace := by
    obtain ⟨c, b, p, bs, bc, d, tr⟩ := s
    cases b with
    | none => simp [store] at h0
    | some buf =>
      match buf, h0 with
      | [], h0 => simp [store] at h0
      | [_], h0 => simp [store] at h0
      | [_, _], h0 => simp [store] at h0
      | x0 :: x1 :: x2 :: rest, h0 =>
        simp [store, NSF_OIP_MASK] at h0
        subst h0
        simp [load]
  constructor
  · simp only [nand_spi_flash_read_status, h0, Res.bind_ok]
    exact read_status_loop_polls K s0 sK 1 st fuel hl0.1 (by decide) hbusy hdone hst hclear hfuel
  · rw [polls_trace (K + 1) s0 sK hdone, hl0.2]

/-- Witness for C5: two busy status reads, then 0x20. -/
theorem read_status_polls_until_clear_witness :
    nand_spi_flash_read_status 4 (smallSession busyTwice) =
      .ok (0x20, { smallSession [] with
                     m_nsf_buffer := some [0x0F, 0xC0, 0x20, 0, 0, 0, 0, 0],
                     trace := pollEvents 3 }) ∧
    pollEvents 3 = (smallSession busyTwice).trace ++ pollEvents (2 + 1) :=
  read_status_polls_until_clear 2 4 (smallSession busyTwice)
    { smallSession busyTwice with m_nsf_buffer := some [0, 0, 1, 0, 0, 0, 0, 0] }
    { smallSession [] with m_nsf_buffer := some [0x0F, 0xC0, 0x20, 0, 0, 0, 0, 0],
                           trace := pollEvents 3 }
    0x20 (by rfl)
    (by
      intro i h1 h2
      interval_cases i
      · exact ⟨_, _, by rfl, by rfl, by decide⟩
      · exact ⟨_, _, by rfl, by rfl, by decide⟩)
    (by rfl) (by rfl) (by decide) (by decide)

/-! ## C6: uncorrectable ECC on read -/

theorem page_read_eq {δ : Type} (fuel : Nat) (s : State δ)
    (row_address col_address : Nat) (buffer : List Nat) (read_len : Nat) :
    nand_spi_flash_page_read fuel s row_address col_address buffer read_len =
      if read_len > s.m_nsf_page_size_bytes then .ok (NSF_ERR_DATA_TOO_BIG, buffer, s) else
      (page_read_load s row_address).bind fun r =>
      if r.1 ≠ 0 then .ok (NSF_ERROR_SPI, buffer, r.2) else
      (nand_spi_flash_read_status fuel r.2).bind fun p =>
      if p.1 &&& NSF_ECC_MASK = NSF_ECC_MASK then .ok (NSF_ERR_BAD_BLOCK, buffer, p.2) else
      page_read_fetch p.2 col_address buffer read_len := by
  simp only [nand_spi_flash_page_read, page_read_load, page_read_fetch, Res.bind_assoc]

theorem page_read_fetch_ne_bad_block {δ : Type} (s : State δ) (col_address : Nat)
    (buffer : List Nat) (read_len : Nat) (r : Int) (out : List Nat) (s1 : State δ)
    (h : page_read_fetch s col_address buffer read_len = .ok (r, out, s1)) :
    r = NSF_ERROR_SPI ∨ r = (read_len : Int) := by
  unfold page_read_fetch at h
  obtain ⟨a1, _, h⟩ := Res.bind_eq_ok _ _ _ h
  obtain ⟨a2, _, h⟩ := Res.bind_eq_ok _ _ _ h
  obtain ⟨a3, _, h⟩ := Res.bind_eq_ok _ _ _ h
  obtain ⟨a4, _, h⟩ := Res.bind_eq_ok _ _ _ h
  obtain ⟨a5, _, h⟩ := Res.bind_eq_ok _ _ _ h
  split at h
  · injection h with h
    left
    exact (congrArg Prod.fst h).symm
  · obtain ⟨a6, _, h⟩ := Res.bind_eq_ok _ _ _ h
    injection h with h
    right
    exact (congrArg Prod.fst h).symm


theorem store_trace {δ : Type} (s s1 : State δ) (i v : Nat) (h : store s i v = .ok s1) :
    s1.trace = s.trace := by
  unfold store at h
  split at h
  · simp at h
  · split at h
    · injection h with h
      subst h
      rfl
    · simp at h

theorem read_status_loop_polls_inv {δ : Type} (fuel : Nat) : ∀ (s s1 : State δ) (st : Nat),
    read_status_loop fuel s = .ok (st, s1) →
    ∃ n, polls n s = .ok s1 ∧ load s1 2 = .ok st ∧ st &&& NSF_OIP_MASK = 0 := by
  induction fuel with
  | zero =>
    intro s s1 st h
    simp [read_status_loop] at h
  | succ fuel ih =>
    intro s s1 st h
    rw [read_status_loop] at h
    obtain ⟨b, hb, h⟩ := Res.bind_eq_ok _ _ _ h
    split at h
    · obtain ⟨s2, h2, h⟩ := Res.bind_eq_ok _ _ _ h
      obtain ⟨n, hn, hl, hc⟩ := ih s2 s1 st h
      refine ⟨n + 1, ?_, hl, hc⟩
      rw [polls, h2, Res.bind_ok, hn]
    · rename_i hclear
      rw [hb, Res.bind_ok] at h
      injection h with h
      injection h with h1 h2
      subst h1 h2
      exact ⟨0, rfl, hb, not_not.mp hclear⟩

/-- A status poll that returns made only poll rounds: some number of delays
of 115 microseconds each followed by a status exchange. -/
theorem read_status_trace {δ : Type} (fuel : Nat) (s s1 : State δ) (st : Nat)
    (h : nand_spi_flash_read_status fuel s = .ok (st, s1)) :
    ∃ n, s1.trace = s.trace ++ pollEvents n := by
  unfold nand_spi_flash_read_status at h
  obtain ⟨s0, h0, h⟩ := Res.bind_eq_ok _ _ _ h
  obtain ⟨n, hn, _, _⟩ := read_status_loop_polls_inv fuel s0 s1 st h
  exact ⟨n, by rw [polls_trace n s0 s1 hn, store_trace s s0 _ _ h0]⟩

theorem page_read_load_trace {δ : Type} (s s1 : State δ) (row_address : Nat) (rc : Int)
    (h : page_read_load s row_address = .ok (rc, s1)) :
    s1.trace = s.trace ++ [Event.spi (rowCommand NSF_CMD_READ_CELL_TO_CACHE row_address) 0] := by
  obtain ⟨c, b, p, bs, bc, d, tr⟩ := s
  cases b with
  | none => simp [page_read_load, store] at h
  | some buf =>
    match buf, h with
    | [], h => simp [page_read_load, store] at h
    | [_], h => simp [page_read_load, store] at h
    | [_, _], h => simp [page_read_load, store] at h
    | [_, _, _], h => simp [page_read_load, store] at h
    | b0 :: b1 :: b2 :: b3 :: rest, h =>
      cases c with
      | none => simp [page_read_load, store, call_spi_transfer] at h
      | some cfg =>
        simp [page_read_load, store, call_spi_transfer] at h
        obtain ⟨_, h⟩ := h
        subst h
        simp [rowCommand, NSF_CMD_READ_CELL_TO_CACHE]

/-- C6. For a page read with read_len at most page_size_bytes whose load-page
exchange returns 0 and whose status poll ends with the byte st: if
st AND 0x30 = 0x30 the call returns BadBlock, the destination is unchanged
and the calls made are only the load-page exchange and the poll rounds (no
read-from-cache exchange); if st AND 0x30 is not 0x30 the call does not
return BadBlock. -/
theorem page_read_bad_block_iff_ecc {δ : Type} (fuel : Nat) (s s1 s2 : State δ)
    (row_address col_address : Nat) (buffer : List Nat) (read_len st : Nat)
    (hlen : read_len ≤ nand_spi_flash_page_size_bytes s)
    (hload : page_read_load s row_address = .ok (0, s1))
    (hpoll : nand_spi_flash_read_status fuel s1 = .ok (st, s2)) :
    (st &&& 0x30 = 0x30 →
      nand_spi_flash_page_read fuel s row_address col_address buffer read_len
        = .ok (NSF_ERR_BAD_BLOCK, buffer, s2) ∧
      ∃ n, s2.trace = s.trace ++ [Event.spi (rowCommand 0x13 row_address) 0] ++ pollEvents n) ∧
    (st &&& 0x30 ≠ 0x30 →
      ∀ (r : Int) (out : List Nat) (s3 : State δ),
        nand_spi_flash_page_read fuel s row_address col_address buffer read_len
          = .ok (r, out, s3) → r ≠ NSF_ERR_BAD_BLOCK) := by
  unfold nand_spi_flash_page_size_bytes at hlen
  have heq := page_read_eq fuel s row_address col_address buffer read_len
  rw [if_neg (not_lt.mpr hlen), hload, Res.bind_ok] at heq
  simp only [ne_eq, not_true_eq_false, if_false, hpoll, Res.bind_ok] at heq
  constructor
  · intro hecc
    have hecc1 : st &&& NSF_ECC_MASK = NSF_ECC_MASK := hecc
    rw [if_pos hecc1] at heq
    refine ⟨heq, ?_⟩
    obtain ⟨n, hn⟩ := read_status_trace fuel s1 s2 st hpoll
    exact ⟨n, by rw [hn, page_read_load_trace s s1 row_address 0 hload]; rfl⟩
  · intro hecc r out s3 h
    have hecc1 : ¬ st &&& NSF_ECC_MASK = NSF_ECC_MASK := hecc
    rw [if_neg hecc1] at heq
    rw [heq] at h
    rcases page_read_fetch_ne_bad_block s2 col_address buffer read_len r out s3 h with h | h
    · rw [h]
      decide
    · rw [h]
      intro hneg
      have : (0 : Int) ≤ (read_len : Int) := Int.ofNat_nonneg _
      rw [hneg] at this
      exact absurd this (by decide)

/-- Witness for C6: the status byte 0x30 after the load-page command makes
the read of row 5 fail as BadBlock with the destination untouched. -/
theorem page_read_bad_block_iff_ecc_witness :
    nand_spi_flash_page_read 3 (smallSession (commandsThenStatus 1 0 0x30)) 5 0 [9, 9] 2
      = .ok (NSF_ERR_BAD_BLOCK, [9, 9],
          { smallSession [] with
              m_nsf_buffer := some [0x0F, 0xC0, 0x30, 5, 0, 0, 0, 0],
              trace := Event.spi [0x13, 0, 0, 5] 0 :: pollEvents 1 }) :=
  ((page_read_bad_block_iff_ecc 3 (smallSession (commandsThenStatus 1 0 0x30))
    { smallSession [(0, [0x0F, 0xC0, 0x30])] with
        m_nsf_buffer := some [0x13, 0, 0, 5, 0, 0, 0, 0],
        trace := [Event.spi [0x13, 0, 0, 5] 0] }
    { smallSession [] with
        m_nsf_buffer := some [0x0F, 0xC0, 0x30, 5, 0, 0, 0, 0],
        trace := Event.spi [0x13, 0, 0, 5] 0 :: pollEvents 1 }
    5 0 [9, 9] 2 0x30 (by decide) (by rfl) (by rfl)).1 (by decide)).1

/-! ## C7: program and erase failure bits -/

theorem page_write_eq {δ : Type} (fuel : Nat) (s : State δ)
    (row_address col_address : Nat) (data : List Nat) (data_len : Nat) :
    nand_spi_flash_page_write fuel s row_address col_address data data_len =
      if data_len + col_address > s.m_nsf_page_size_bytes then .ok (NSF_ERR_DATA_TOO_BIG, s) else
      (page_write_commands s row_address col_address data data_len).bind fun r =>
      if r.1 ≠ 0 then .ok (NSF_ERROR_SPI, r.2) else
      (nand_spi_flash_read_status fuel r.2).bind fun p =>
      .ok (if p.1 &&& NSF_PRG_F_MASK ≠ 0 then NSF_ERR_ERASE else (data_len : Int), p.2) := by
  simp [nand_spi_flash_page_write, page_write_commands, Res.bind_assoc, Res.bind_ite,
    NSF_ERROR_SPI]

theorem block_erase_eq {δ : Type} (fuel : Nat) (s : State δ) (row_address : Nat) :
    nand_spi_flash_block_erase fuel s row_address =
      (block_erase_commands s row_address).bind fun r =>
      if r.1 ≠ 0 then .ok (NSF_ERROR_SPI, r.2) else
      (nand_spi_flash_read_status fuel r.2).bind fun p =>
      .ok (if p.1 &&& NSF_ERS_F_MASK ≠ 0 then NSF_ERR_ERASE else NSF_ERR_OK, p.2) := by
  simp [nand_spi_flash_block_erase, block_erase_commands, Res.bind_assoc, Res.bind_ite,
    NSF_ERROR_SPI]

/-- C7. When the bounds check passes, the three command exchanges of a page
write return 0 and the status poll ends with the byte st, the write returns
NSF_ERR_ERASE (a negative code) if st AND 0x08 is nonzero and data_len
otherwise. When the two command exchanges of a block erase return 0 and the
poll ends with st, the erase returns NSF_ERR_ERASE = -7 if st AND 0x04 is
nonzero and 0 otherwise. Each result depends on st through that one bit only. -/
theorem write_erase_result_from_status {δ : Type} (fuel : Nat) (sw sw1 sw2 se se1 se2 : State δ)
    (row_address col_address : Nat) (data : List Nat) (data_len stw ste : Nat) :
    (col_address + data_len ≤ nand_spi_flash_page_size_bytes sw →
      page_write_commands sw row_address col_address data data_len = .ok (0, sw1) →
      nand_spi_flash_read_status fuel sw1 = .ok (stw, sw2) →
      nand_spi_flash_page_write fuel sw row_address col_address data data_len
        = .ok (if stw &&& 0x08 ≠ 0 then NSF_ERR_ERASE else (data_len : Int), sw2)) ∧
    (block_erase_commands se row_address = .ok (0, se1) →
      nand_spi_flash_read_status fuel se1 = .ok (ste, se2) →
      nand_spi_flash_block_erase fuel se row_address
        = .ok (if ste &&& 0x04 ≠ 0 then NSF_ERR_ERASE else NSF_ERR_OK, se2)) ∧
    NSF_ERR_ERASE = -7 ∧ NSF_ERR_OK = 0 := by
  refine ⟨?_, ?_, rfl, rfl⟩
  · intro hlen hcmd hpoll
    unfold nand_spi_flash_page_size_bytes at hlen
    have hnot : ¬ data_len + col_address > sw.m_nsf_page_size_bytes := by omega
    rw [page_write_eq, if_neg hnot, hcmd, Res.bind_ok]
    simp only [ne_eq, not_true_eq_false, if_false, hpoll, Res.bind_ok, NSF_PRG_F_MASK]
  · intro hcmd hpoll
    rw [block_erase_eq, hcmd, Res.bind_ok]
    simp only [ne_eq, not_true_eq_false, if_false, hpoll, Res.bind_ok, NSF_ERS_F_MASK]

/-- Witness for C7: after a write of two bytes the status 0x08 gives -7, and
after an erase the status 0x04 gives -7. -/
theorem write_erase_result_from_status_witness :
    nand_spi_flash_page_write 3 (smallSession (commandsThenStatus 3 0 0x08)) 5 0 [1, 2] 2
      = .ok (-7, { smallSession [] with
                     m_nsf_buffer := some [0x0F, 0xC0, 0x08, 5, 2, 0, 0, 0],
                     trace := [Event.spi [0x06] 0, Event.spi [0x02, 0, 0, 1, 2] 0,
                               Event.spi [0x10, 0, 0, 5] 0] ++ pollEvents 1 }) ∧
    nand_spi_flash_block_erase 3 (smallSession (commandsThenStatus 2 0 0x04)) 5
      = .ok (-7, { smallSession [] with
                     m_nsf_buffer := some [0x0F, 0xC0, 0x04, 5, 0, 0, 0, 0],
                     trace := [Event.spi [0x06] 0, Event.spi [0xD8, 0, 0, 5] 0]
                                ++ pollEvents 1 }) :=
  have h := write_erase_result_from_status 3
    (smallSession (commandsThenStatus 3 0 0x08))
    { smallSession [(0, [0x0F, 0xC0, 0x08])] with
        m_nsf_buffer := some [0x10, 0, 0, 5, 2, 0, 0, 0],
        trace := [Event.spi [0x06] 0, Event.spi [0x02, 0, 0, 1, 2] 0,
                  Event.spi [0x10, 0, 0, 5] 0] }
    { smallSession [] with
        m_nsf_buffer := some [0x0F, 0xC0, 0x08, 5, 2, 0, 0, 0],
        trace := [Event.spi [0x06] 0, Event.spi [0x02, 0, 0, 1, 2] 0,
                  Event.spi [0x10, 0, 0, 5] 0] ++ pollEvents 1 }
    (smallSession (commandsThenStatus 2 0 0x04))
    { smallSession [(0, [0x0F, 0xC0, 0x04])] with
        m_nsf_buffer := some [0xD8, 0, 0, 5, 0, 0, 0, 0],
        trace := [Event.spi [0x06] 0, Event.spi [0xD8, 0, 0, 5] 0] }
    { smallSession [] with
        m_nsf_buffer := some [0x0F, 0xC0, 0x04, 5, 0, 0, 0, 0],
        trace := [Event.spi [0x06] 0, Event.spi [0xD8, 0, 0, 5] 0] ++ pollEvents 1 }
    5 0 [1, 2] 2 0x08 0x04
  ⟨h.1 (by decide) (by rfl) (by rfl), h.2.1 (by rfl) (by rfl)⟩

/-! ## C8: the code returned for a program failure -/

/-- C8, the code at the failing input. A page write whose status poll ends
with the program-failure bit set returns NSF_ERR_ERASE (-7): the very code a
block erase returns for the erase-failure bit, and not NSF_ERR_PROGRAM (-8). -/
theorem program_failure_returns_erase_code :
    (∃ s1, nand_spi_flash_page_write 3 (smallSession (commandsThenStatus 3 0 0x08)) 5 0 [1, 2] 2
        = .ok (NSF_ERR_ERASE, s1)) ∧
    (∃ s2, nand_spi_flash_block_erase 3 (smallSession (commandsThenStatus 2 0 0x04)) 5
        = .ok (NSF_ERR_ERASE, s2)) ∧
    NSF_ERR_ERASE = -7 ∧ NSF_ERR_PROGRAM = -8 :=
  ⟨⟨_, by rfl⟩, ⟨_, by rfl⟩, rfl, rfl⟩

/-! ## C9: the return value of the status exchange -/

/-- C9, the code at the failing input. In the first run the first status
exchange of the poll returns 1 (a transport failure) and leaves the buffer
alone, the second returns 0 with a clear status byte: the block erase polls a
second time and returns OK. In the other two runs the status exchange returns
1 while delivering a clear status byte: the page write still returns data_len
and the page read still returns read_len. None returns TransportFailure. -/
theorem status_exchange_failure_not_reported :
    nand_spi_flash_block_erase 3
        (smallSession [(0, []), (0, []), (1, []), (0, [0x0F, 0xC0, 0x00])]) 5
      = .ok (NSF_ERR_OK,
          { smallSession [] with
              m_nsf_buffer := some [0x0F, 0xC0, 0x00, 5, 0, 0, 0, 0],
              trace := [Event.spi [0x06] 0, Event.spi [0xD8, 0, 0, 5] 0] ++ pollEvents 2 }) ∧
    (∃ s2, nand_spi_flash_page_write 3 (smallSession (commandsThenStatus 3 1 0x00)) 5 0 [1, 2] 2
        = .ok (2, s2)) ∧
    (∃ s3 out, nand_spi_flash_page_read 3 (smallSession (commandsThenStatus 1 1 0x00)) 5 0 [9, 9] 2
        = .ok (2, out, s3)) ∧
    NSF_ERROR_SPI = -100 :=
  ⟨by rfl, ⟨_, by rfl⟩, ⟨_, _, by rfl⟩, rfl⟩

/-! ## C10: round trip on the fake device -/

theorem Bytes.map_mod {l : List Nat} (h : Bytes l) : l.map (fun b => b % 256) = l := by
  induction l with
  | nil => rfl
  | cons a l ih =>
    have ha : a < 256 := h a (List.mem_cons_self a l)
    have hl : Bytes l := fun b hb => h b (List.mem_cons_of_mem a hb)
    simp [ih hl, Nat.mod_eq_of_lt ha]

theorem writeBack_of_bytes {buf out : List Nat} (hlen : out.length = buf.length)
    (h : Bytes out) : writeBack buf out = out := by
  unfold writeBack
  rw [← hlen, List.take_length, List.drop_eq_nil_of_le (by omega), List.append_nil]
  exact h.map_mod

theorem fake_poll (fuel : Nat) (x0 x1 x2 : Nat) (tl : List Nat) (P bs bc : Nat)
    (d : FakeDevice) (tr : List Event) (htl : Bytes tl) :
    nand_spi_flash_read_status (fuel + 2)
      { m_nsf_config := some fakeConfig, m_nsf_buffer := some (x0 :: x1 :: x2 :: tl),
        m_nsf_page_size_bytes := P, m_nsf_block_size_pages := bs, m_nsf_blocks_count := bc,
        dev := d, trace := tr } =
    .ok (0, { m_nsf_config := some fakeConfig, m_nsf_buffer := some (0x0F :: 0xC0 :: 0 :: tl),
              m_nsf_page_size_bytes := P, m_nsf_block_size_pages := bs, m_nsf_blocks_count := bc,
              dev := d, trace := tr ++ pollEvents 1 }) := by
  have hwb : writeBack (15 :: 192 :: 1 :: tl) (15 :: 192 :: 0 :: tl) = 15 :: 192 :: 0 :: tl := by
    apply writeBack_of_bytes (by simp)
    intro b hb
    simp only [List.mem_cons] at hb
    rcases hb with rfl | rfl | rfl | hb
    · decide
    · decide
    · decide
    · exact htl b hb
  simp [nand_spi_flash_read_status, read_status_loop, read_status_body, store, load,
    call_delay_us, call_spi_transfer, exchange, fakeConfig, fakeTransfer, NSF_OIP_MASK,
    NSF_CMD_GET_FEATURE, NSF_CMD_FEATURE_STATUS, NSF_CMD_PROGRAM_LOAD, NSF_CMD_PROGRAM_EXECUTE,
    NSF_CMD_READ_CELL_TO_CACHE, NSF_PAGE_READ_TIME_US, pollEvents, hwb]

theorem fake_write_commands (b0 b1 b2 b3 : Nat) (rest data : List Nat) (P bs bc row : Nat)
    (d : FakeDevice) (tr : List Event) (hrest : rest.length = P)
    (hb : Bytes (b0 :: b1 :: b2 :: b3 :: rest)) (hdata : data.length = P) (hd : Bytes data)
    (hP : P + 3 < 65536) :
    page_write_commands
      { m_nsf_config := some fakeConfig, m_nsf_buffer := some (b0 :: b1 :: b2 :: b3 :: rest),
        m_nsf_page_size_bytes := P, m_nsf_block_size_pages := bs, m_nsf_blocks_count := bc,
        dev := d, trace := tr } row 0 data P =
    .ok (0, { m_nsf_config := some fakeConfig,
              m_nsf_buffer := some (0x10 :: ((row &&& 0xff0000) >>> 16) % 256 ::
                ((row &&& 0xff00) >>> 8) % 256 :: row % 256 ::
                (data ++ (b3 :: rest).drop P).drop 1),
              m_nsf_page_size_bytes := P, m_nsf_block_size_pages := bs, m_nsf_blocks_count := bc,
              dev := { cache := data ++ d.cache.drop P,
                       pages := fun r =>
                         if r = rowKey row then data ++ d.cache.drop P else d.pages r },
              trace := tr ++ [Event.spi [0x06] 0, Event.spi (0x02 :: 0 :: 0 :: data) 0,
                              Event.spi (rowCommand 0x10 row) 0] }) := by
  have hb1 : Bytes (b1 :: b2 :: b3 :: rest) := fun x hx => hb x (List.mem_cons_of_mem _ hx)
  have hb3 : Bytes (b3 :: rest) := fun x hx =>
    hb1 x (List.mem_cons_of_mem _ (List.mem_cons_of_mem _ hx))
  have hwb1 : writeBack (6 :: b1 :: b2 :: b3 :: rest) (6 :: b1 :: b2 :: b3 :: rest)
      = 6 :: b1 :: b2 :: b3 :: rest := by
    apply writeBack_of_bytes rfl
    intro x hx
    rcases List.mem_cons.mp hx with rfl | hx
    · decide
    · exact hb1 x hx
  have hmod : (P + 3) % 65536 = P + 3 := Nat.mod_eq_of_lt hP
  have harith : 3 + P ≤ P + 1 + 1 + 1 + 1 := by omega
  have htake : List.take P data = data := by rw [← hdata, List.take_length]
  have hdrop : List.drop (3 + P) (2 :: 0 :: 0 :: b3 :: rest) = List.drop P (b3 :: rest) := by
    have : 3 + P = P + 3 := by omega
    rw [this]
    rfl
  have hzlen : (List.drop P (b3 :: rest)).length = 1 := by simp [hrest]
  obtain ⟨y, tl, hw⟩ : ∃ y tl, data ++ List.drop P (b3 :: rest) = y :: tl := by
    cases hc : data ++ List.drop P (b3 :: rest) with
    | nil =>
      have := congrArg List.length hc
      simp [hzlen] at this
    | cons y tl => exact ⟨y, tl, rfl⟩
  have hwbytes : Bytes (y :: tl) := by
    rw [← hw]
    intro x hx
    rcases List.mem_append.mp hx with h | h
    · exact hd x h
    · exact hb3 x (List.mem_of_mem_drop h)
  have htl : tl.length = P := by
    have := congrArg List.length hw
    simp [hzlen, hdata] at this
    omega
  have htk : List.take P (y :: tl) = data := by
    rw [← hw, ← hdata, List.take_left]
  have hwb2 : writeBack (2 :: 0 :: 0 :: y :: tl) (2 :: 0 :: 0 :: y :: tl)
      = 2 :: 0 :: 0 :: y :: tl := by
    apply writeBack_of_bytes rfl
    intro x hx
    simp only [List.mem_cons] at hx
    rcases hx with rfl | rfl | rfl | hx
    · decide
    · decide
    · decide
    · exact hwbytes x (List.mem_cons.mpr hx)
  have hwb3 : writeBack
      (16 :: (row &&& 16711680) >>> 16 % 256 :: (row &&& 65280) >>> 8 % 256 :: row % 256 :: tl)
      (16 :: (row &&& 16711680) >>> 16 % 256 :: (row &&& 65280) >>> 8 % 256 :: row % 256 :: tl)
      = 16 :: (row &&& 16711680) >>> 16 % 256 :: (row &&& 65280) >>> 8 % 256 :: row % 256 :: tl := by
    apply writeBack_of_bytes rfl
    intro x hx
    simp only [List.mem_cons] at hx
    rcases hx with rfl | rfl | rfl | rfl | hx
    · decide
    · exact Nat.mod_lt _ (by decide)
    · exact Nat.mod_lt _ (by decide)
    · exact Nat.mod_lt _ (by decide)
    · exact hwbytes x (List.mem_cons_of_mem _ hx)
  have harith2 : P + 3 ≤ tl.length + 1 + 1 + 1 + 1 := by omega
  simp [page_write_commands, store, call_spi_transfer, exchange, fakeConfig, fakeTransfer, copy_in,
    NSF_CMD_WRITE_ENABLE, NSF_CMD_GET_FEATURE, NSF_CMD_FEATURE_STATUS, NSF_CMD_PROGRAM_LOAD,
    NSF_CMD_PROGRAM_EXECUTE, NSF_CMD_READ_CELL_TO_CACHE, hwb1, hmod, hrest, hdata, hd.map_mod,
    harith, htake, hdrop, hw, hwb2, hwb3, htk, harith2, rowKey, rowCommand]

theorem write_tail_props (b3 : Nat) (rest data : List Nat) (P : Nat) (hrest : rest.length = P)
    (hb : Bytes (b3 :: rest)) (hdata : data.length = P) (hd : Bytes data) :
    ((data ++ (b3 :: rest).drop P).drop 1).length = P ∧
    Bytes ((data ++ (b3 :: rest).drop P).drop 1) := by
  constructor
  · simp [hrest, hdata]
  · intro x hx
    rcases List.mem_append.mp (List.mem_of_mem_drop hx) with h | h
    · exact hd x h
    · exact hb x (List.mem_of_mem_drop h)

theorem fake_page_write (fuel : Nat) (b0 b1 b2 b3 : Nat) (rest data : List Nat)
    (P bs bc row : Nat) (d : FakeDevice) (tr : List Event) (hrest : rest.length = P)
    (hb : Bytes (b0 :: b1 :: b2 :: b3 :: rest)) (hdata : data.length = P) (hd : Bytes data)
    (hP : P + 3 < 65536) :
    nand_spi_flash_page_write (fuel + 2)
      { m_nsf_config := some fakeConfig, m_nsf_buffer := some (b0 :: b1 :: b2 :: b3 :: rest),
        m_nsf_page_size_bytes := P, m_nsf_block_size_pages := bs, m_nsf_blocks_count := bc,
        dev := d, trace := tr } row 0 data P =
    .ok ((P : Int),
         { m_nsf_config := some fakeConfig,
           m_nsf_buffer := some (0x0F :: 0xC0 :: 0 :: row % 256 ::
             (data ++ (b3 :: rest).drop P).drop 1),
           m_nsf_page_size_bytes := P, m_nsf_block_size_pages := bs, m_nsf_blocks_count := bc,
           dev := { cache := data ++ d.cache.drop P,
                    pages := fun r =>
                      if r = rowKey row then data ++ d.cache.drop P else d.pages r },
           trace := (tr ++ [Event.spi [0x06] 0, Event.spi (0x02 :: 0 :: 0 :: data) 0,
                            Event.spi (rowCommand 0x10 row) 0]) ++ pollEvents 1 }) := by
  have hb3 : Bytes (b3 :: rest) := fun x hx =>
    hb x (List.mem_cons_of_mem _ (List.mem_cons_of_mem _ (List.mem_cons_of_mem _ hx)))
  have ht := (write_tail_props b3 rest data P hrest hb3 hdata hd).2
  have hbt : Bytes (row % 256 :: (data ++ (b3 :: rest).drop P).drop 1) := by
    intro x hx
    rcases List.mem_cons.mp hx with rfl | hx
    · exact Nat.mod_lt _ (by decide)
    · exact ht x hx
  rw [page_write_eq, fake_write_commands b0 b1 b2 b3 rest data P bs bc row d tr hrest hb hdata hd hP]
  simp only [Nat.add_zero, gt_iff_lt, lt_irrefl, if_false, Res.bind_ok, ne_eq, not_true_eq_false]
  rw [fake_poll fuel _ _ _ _ P bs bc _ _ hbt]
  simp [NSF_PRG_F_MASK]

theorem fake_page_read (fuel : Nat) (x0 x1 x2 x3 : Nat) (tl data extra out : List Nat)
    (P bs bc row : Nat) (d : FakeDevice) (tr : List Event) (htl : tl.length = P)
    (hb : Bytes tl) (hdata : data.length = P) (hd : Bytes data)
    (hpage : d.pages (rowKey row) = data ++ extra) (hout : P ≤ out.length) :
    nand_spi_flash_page_read (fuel + 2)
      { m_nsf_config := some fakeConfig, m_nsf_buffer := some (x0 :: x1 :: x2 :: x3 :: tl),
        m_nsf_page_size_bytes := P, m_nsf_block_size_pages := bs, m_nsf_blocks_count := bc,
        dev := d, trace := tr } row 0 out P =
    .ok ((P : Int), data ++ out.drop P,
         { m_nsf_config := some fakeConfig,
           m_nsf_buffer := some (0x03 :: 0 :: 0 :: 0 :: data),
           m_nsf_page_size_bytes := P, m_nsf_block_size_pages := bs, m_nsf_blocks_count := bc,
           dev := { d with cache := data ++ extra },
           trace := ((tr ++ [Event.spi (rowCommand 0x13 row) 0]) ++ pollEvents 1) ++
                      [Event.spi [0x03, 0, 0, 0] P] }) := by
  have hbt : Bytes (row % 256 :: tl) := by
    intro x hx
    rcases List.mem_cons.mp hx with rfl | hx
    · exact Nat.mod_lt _ (by decide)
    · exact hb x hx
  have hload : page_read_load
      { m_nsf_config := some fakeConfig, m_nsf_buffer := some (x0 :: x1 :: x2 :: x3 :: tl),
        m_nsf_page_size_bytes := P, m_nsf_block_size_pages := bs, m_nsf_blocks_count := bc,
        dev := d, trace := tr } row =
      .ok (0, { m_nsf_config := some fakeConfig,
                m_nsf_buffer := some (0x13 :: ((row &&& 0xff0000) >>> 16) % 256 ::
                  ((row &&& 0xff00) >>> 8) % 256 :: row % 256 :: tl),
                m_nsf_page_size_bytes := P, m_nsf_block_size_pages := bs,
                m_nsf_blocks_count := bc,
                dev := { d with cache := data ++ extra },
                trace := tr ++ [Event.spi (rowCommand 0x13 row) 0] }) := by
    have hwb : writeBack
        (19 :: (row &&& 16711680) >>> 16 % 256 :: (row &&& 65280) >>> 8 % 256 :: row % 256 :: tl)
        (19 :: (row &&& 16711680) >>> 16 % 256 :: (row &&& 65280) >>> 8 % 256 :: row % 256 :: tl)
        = 19 :: (row &&& 16711680) >>> 16 % 256 :: (row &&& 65280) >>> 8 % 256 :: row % 256 :: tl := by
      apply writeBack_of_bytes rfl
      intro x hx
      simp only [List.mem_cons] at hx
      rcases hx with rfl | rfl | rfl | hx
      · decide
      · exact Nat.mod_lt _ (by decide)
      · exact Nat.mod_lt _ (by decide)
      · exact hbt x (List.mem_cons.mpr hx)
    have hpage1 : d.pages ((row &&& 16711680) >>> 16 % 256 * 65536 +
        (row &&& 65280) >>> 8 % 256 * 256 + row % 256) = data ++ extra := hpage
    simp [page_read_load, store, call_spi_transfer, exchange, fakeConfig, fakeTransfer,
      NSF_CMD_PROGRAM_LOAD, NSF_CMD_PROGRAM_EXECUTE, NSF_CMD_READ_CELL_TO_CACHE, hwb, hpage1,
      rowCommand]
  have hfetch : page_read_fetch
      { m_nsf_config := some fakeConfig,
        m_nsf_buffer := some (0x0F :: 0xC0 :: 0 :: row % 256 :: tl),
        m_nsf_page_size_bytes := P, m_nsf_block_size_pages := bs, m_nsf_blocks_count := bc,
        dev := { d with cache := data ++ extra },
        trace := (tr ++ [Event.spi (rowCommand 0x13 row) 0]) ++ pollEvents 1 } 0 out P =
      .ok ((P : Int), data ++ out.drop P,
         { m_nsf_config := some fakeConfig,
           m_nsf_buffer := some (0x03 :: 0 :: 0 :: 0 :: data),
           m_nsf_page_size_bytes := P, m_nsf_block_size_pages := bs, m_nsf_blocks_count := bc,
           dev := { d with cache := data ++ extra },
           trace := ((tr ++ [Event.spi (rowCommand 0x13 row) 0]) ++ pollEvents 1) ++
                      [Event.spi [0x03, 0, 0, 0] P] }) := by
    have hwb : writeBack (3 :: 0 :: 0 :: 0 :: tl) (3 :: 0 :: 0 :: 0 :: data)
        = 3 :: 0 :: 0 :: 0 :: data := by
      apply writeBack_of_bytes (by simp [htl, hdata])
      intro x hx
      simp only [List.mem_cons] at hx
      rcases hx with rfl | rfl | rfl | rfl | hx
      · decide
      · decide
      · decide
      · decide
      · exact hd x hx
    have htk : List.take P (data ++ extra) = data := by rw [← hdata, List.take_left]
    have htk2 : List.take P data = data := by rw [← hdata, List.take_length]
    have hdr : List.drop P tl = [] := List.drop_eq_nil_of_le (by omega)
    have ha1 : 4 + P ≤ tl.length + 1 + 1 + 1 + 1 := by omega
    have ha2 : 4 + P ≤ data.length + 1 + 1 + 1 + 1 := by omega
    have ha3 : 4 + P ≤ P + 1 + 1 + 1 + 1 := by omega
    have hdr2 : List.drop (4 + P) (3 :: 0 :: 0 :: 0 :: tl) = [] :=
      List.drop_eq_nil_of_le (by simp [htl]; omega)
    simp [page_read_fetch, store, call_spi_transfer, exchange, fakeConfig, fakeTransfer, copy_out,
      NSF_CMD_PROGRAM_LOAD, NSF_CMD_PROGRAM_EXECUTE, NSF_CMD_READ_CELL_TO_CACHE, hwb, htk, htk2,
      hdr, hdr2, ha1, ha2, ha3, hout, htl, hdata]
  rw [page_read_eq, hload]
  simp only [gt_iff_lt, lt_irrefl, if_false, Res.bind_ok, ne_eq, not_true_eq_false]
  rw [fake_poll fuel _ _ _ _ P bs bc _ _ hbt]
  simp only [Res.bind_ok]
  rw [if_neg (by decide)]
  exact hfetch

/-- C10. Round trip on the fake device without bit errors: for a live session
on it whose scratch buffer is the page_size_bytes + 4 byte array, every row
address and every data of page_size_bytes bytes, with two units of fuel or
more, nand_spi_flash_page_write(row, 0, data, page_size_bytes) returns
page_size_bytes and the nand_spi_flash_page_read(row, 0, out, page_size_bytes)
that follows returns page_size_bytes and leaves data in the first
page_size_bytes bytes of the destination (the rest of it is untouched). The
page size is such that page_size_bytes + 3 fits the 16-bit tx_len, as it is
for every geometry nand_spi_flash_init resolves. -/
theorem page_write_read_round_trip (fuel : Nat) (s : State FakeDevice) (buf : List Nat)
    (row_address : Nat) (data out : List Nat)
    (hcfg : s.m_nsf_config = some fakeConfig) (hbuf : s.m_nsf_buffer = some buf)
    (hlen : buf.length = nand_spi_flash_page_size_bytes s + NSF_CMD_MAX_BYTES)
    (hbytes : Bytes buf) (hP : nand_spi_flash_page_size_bytes s + 3 < 65536)
    (hdata : data.length = nand_spi_flash_page_size_bytes s) (hd : Bytes data)
    (hout : nand_spi_flash_page_size_bytes s ≤ out.length) (hfuel : 2 ≤ fuel) :
    ∃ s1 s2,
      nand_spi_flash_page_write fuel s row_address 0 data (nand_spi_flash_page_size_bytes s)
        = .ok ((nand_spi_flash_page_size_bytes s : Int), s1) ∧
      nand_spi_flash_page_read fuel s1 row_address 0 out (nand_spi_flash_page_size_bytes s)
        = .ok ((nand_spi_flash_page_size_bytes s : Int),
               data ++ out.drop (nand_spi_flash_page_size_bytes s), s2) := by
  obtain ⟨c, b, P, bs, bc, d, tr⟩ := s
  simp only [nand_spi_flash_page_size_bytes, NSF_CMD_MAX_BYTES] at hcfg hbuf hlen hP hdata hout ⊢
  subst hcfg hbuf
  obtain ⟨f, rfl⟩ : ∃ f, fuel = f + 2 := ⟨fuel - 2, by omega⟩
  match buf, hlen, hbytes with
  | b0 :: b1 :: b2 :: b3 :: rest, hlen, hbytes =>
    have hrest : rest.length = P := by
      simp only [List.length_cons] at hlen
      omega
    have hb3 : Bytes (b3 :: rest) := fun x hx =>
      hbytes x (List.mem_cons_of_mem _ (List.mem_cons_of_mem _ (List.mem_cons_of_mem _ hx)))
    obtain ⟨htl, htb⟩ := write_tail_props b3 rest data P hrest hb3 hdata hd
    exact ⟨_, _,
      fake_page_write f b0 b1 b2 b3 rest data P bs bc row_address d tr hrest hbytes hdata hd hP,
      fake_page_read f _ _ _ _ _ data (d.cache.drop P) out P bs bc row_address _ _ htl htb
        hdata hd (by simp) hout⟩
  | [], hlen, _ => simp at hlen
  | [_], hlen, _ => simp at hlen
  | [_, _], hlen, _ => simp at hlen
  | [_, _, _], hlen, _ => simp at hlen

/-- Witness for C10: four bytes written to row 0x123456 of the fake device are
read back. -/
theorem page_write_read_round_trip_witness :
    ∃ s1 s2,
      nand_spi_flash_page_write 2 fakeSession 0x123456 0 [1, 2, 3, 4] 4 = .ok (4, s1) ∧
      nand_spi_flash_page_read 2 s1 0x123456 0 [0, 0, 0, 0] 4 = .ok (4, [1, 2, 3, 4], s2) :=
  page_write_read_round_trip 2 fakeSession [0, 0, 0, 0, 0, 0, 0, 0] 0x123456 [1, 2, 3, 4]
    [0, 0, 0, 0] rfl rfl (by decide) (by simp [Bytes]) (by decide) (by decide) (by simp [Bytes])
    (by decide) (by decide)

/-! ## C12: the column address in the length check of a page read -/

/-- The return values of nand_spi_flash_page_read: DataTooBig exactly when the
length check fails, and otherwise TransportFailure, BadBlock or read_len. -/
theorem page_read_result {δ : Type} (fuel : Nat) (s : State δ)
    (row_address col_address : Nat) (buffer : List Nat) (read_len : Nat)
    (r : Int) (out : List Nat) (s1 : State δ)
    (h : nand_spi_flash_page_read fuel s row_address col_address buffer read_len
      = .ok (r, out, s1)) :
    (r = NSF_ERR_DATA_TOO_BIG ∧ read_len > s.m_nsf_page_size_bytes) ∨
    (read_len ≤ s.m_nsf_page_size_bytes ∧
      (r = NSF_ERROR_SPI ∨ r = NSF_ERR_BAD_BLOCK ∨ r = (read_len : Int))) := by
  rw [page_read_eq] at h
  split at h
  · rename_i hbig
    injection h with h
    exact Or.inl ⟨(congrArg Prod.fst h).symm, hbig⟩
  · rename_i hsmall
    refine Or.inr ⟨not_lt.mp hsmall, ?_⟩
    obtain ⟨a, _, h⟩ := Res.bind_eq_ok _ _ _ h
    split at h
    · injection h with h
      exact Or.inl (congrArg Prod.fst h).symm
    · obtain ⟨p, _, h⟩ := Res.bind_eq_ok _ _ _ h
      split at h
      · injection h with h
        exact Or.inr (Or.inl (congrArg Prod.fst h).symm)
      · rcases page_read_fetch_ne_bad_block _ _ _ _ _ _ _ h with h | h
        · exact Or.inl h
        · exact Or.inr (Or.inr h)

/-- The length check of nand_spi_flash_page_read does not look at the column
address: whenever read_len is at most page_size_bytes the call does not return
DataTooBig, whatever col_address is. -/
theorem page_read_within_length_not_too_big {δ : Type} (fuel : Nat) (s : State δ)
    (row_address col_address : Nat) (buffer : List Nat) (read_len : Nat)
    (r : Int) (out : List Nat) (s1 : State δ)
    (hlen : read_len ≤ nand_spi_flash_page_size_bytes s)
    (h : nand_spi_flash_page_read fuel s row_address col_address buffer read_len
      = .ok (r, out, s1)) :
    r ≠ NSF_ERR_DATA_TOO_BIG := by
  unfold nand_spi_flash_page_size_bytes at hlen
  rcases page_read_result fuel s row_address col_address buffer read_len r out s1 h with
    ⟨_, hbig⟩ | ⟨_, h | h | h⟩
  · omega
  · rw [h]; decide
  · rw [h]; decide
  · rw [h]
    intro hneg
    have : (0 : Int) ≤ (read_len : Int) := Int.ofNat_nonneg _
    rw [hneg] at this
    exact absurd this (by decide)

/-- C12, the code at the failing input. On a live session with page size 4, a
read of 4 bytes at column 3 of row 5 (column plus length is 7, past the end of
the page) whose exchanges succeed is not rejected: it issues the load-page
exchange, polls once, issues the read-from-cache exchange for column 3 and 4
bytes, copies the 4 bytes and returns 4, not DataTooBig (-6). -/
theorem page_read_column_not_checked :
    nand_spi_flash_page_read 3 (smallSession (commandsThenStatus 1 0 0x00)) 5 3 [9, 9, 9, 9] 4
      = .ok (4, [0, 0, 0, 0],
          { smallSession [] with
              m_nsf_buffer := some [0x03, 0, 3, 0, 0, 0, 0, 0],
              trace := [Event.spi [0x13, 0, 0, 5] 0] ++ pollEvents 1
                ++ [Event.spi [0x03, 0, 3, 0] 4] }) ∧
    ¬ (3 + 4 ≤ nand_spi_flash_page_size_bytes (smallSession (commandsThenStatus 1 0 0x00))) ∧
    NSF_ERR_DATA_TOO_BIG = -6 :=
  ⟨by rfl, by decide, rfl⟩

/-! ## C13: what the outcome of the identification depends on -/

/-- C13, counterexample. Two runs of nand_spi_flash_init from the initial
state on a transport that follows the contract and answers 0xA1, 0x00: the
local array holds 0 at offset 1 in the first run and 0xC8 in the second. The
first returns UnknownDevice with geometry (0, 0, 0), the second returns OK
with geometry (2048, 64, 1024). -/
theorem init_outcome_depends_on_offset_one :
    followsIdContract (answering 0xA1 0) (initialState ()).dev zeroMem 0 0xA1 0 ∧
    followsIdContract (answering 0xA1 0) (initialState ()).dev c8Mem 0 0xA1 0 ∧
    initOutcome (nand_spi_flash_init (initialState ()) (answering 0xA1 0) zeroMem)
      = some (NSF_ERR_UNKNOWN_DEVICE, 0, 0, 0) ∧
    initOutcome (nand_spi_flash_init (initialState ()) (answering 0xA1 0) c8Mem)
      = some (NSF_ERR_OK, 2048, 64, 1024) :=
  ⟨⟨by rfl, by rfl⟩, ⟨by rfl, by rfl⟩, by rfl, by rfl⟩

/-- C13, amended. Under the transport contract the outcome of
nand_spi_flash_init (return code and geometry) is a function of the return
value of the exchange, the two response bytes and the byte the local array
held at offset 1 before the call: two runs from the same not-live state that
agree on these produce the same return code and the same geometry, whatever
the local array held at offsets 2 and 3 and whatever malloc returns. -/
theorem init_outcome_determined {δ : Type} (s : State δ) (config config' : Config δ)
    (mem mem' : Indeterminate) (rc : Int) (r2 r3 : Nat)
    (hs : s.m_nsf_buffer = none)
    (h1 : followsIdContract config s.dev mem rc r2 r3)
    (h2 : followsIdContract config' s.dev mem' rc r2 r3)
    (hb : mem.stack 1 % 256 = mem'.stack 1 % 256) :
    initOutcome (nand_spi_flash_init s config mem)
      = initOutcome (nand_spi_flash_init s config' mem') ∧
    (initOutcome (nand_spi_flash_init s config mem)).isSome = true := by
  obtain ⟨h1a, h1b⟩ := h1
  obtain ⟨h2a, h2b⟩ := h2
  rw [← hb] at h2b
  by_cases hrc : rc = 0
  · subst hrc
    have hx : exchange config s.dev (idBuffer mem) 2 2
        = (0, [NSF_CMD_READ_ID, mem.stack 1 % 256, r2, r3],
            (exchange config s.dev (idBuffer mem) 2 2).2.2) :=
      Prod.ext h1a (Prod.ext h1b rfl)
    have hx' : exchange config' s.dev (idBuffer mem') 2 2
        = (0, [NSF_CMD_READ_ID, mem.stack 1 % 256, r2, r3],
            (exchange config' s.dev (idBuffer mem') 2 2).2.2) :=
      Prod.ext h2a (Prod.ext h2b rfl)
    rw [init_eq_of_exchange s config mem _ _ hs hx, init_eq_of_exchange s config' mem' _ _ hs hx']
    simp only []
    split_ifs <;> exact ⟨rfl, rfl⟩
  · have e1 : nand_spi_flash_init s config mem = .ok (NSF_ERROR_SPI,
        { s with m_nsf_config := some config, dev := (exchange config s.dev (idBuffer mem) 2 2).2.2,
                 trace := s.trace ++ [Event.spi ((idBuffer mem).take 2) 2] }) := by
      simp only [nand_spi_flash_init, hs, h1a, ne_eq, hrc, not_false_eq_true, if_true]
    have e2 : nand_spi_flash_init s config' mem' = .ok (NSF_ERROR_SPI,
        { s with m_nsf_config := some config',
                 dev := (exchange config' s.dev (idBuffer mem') 2 2).2.2,
                 trace := s.trace ++ [Event.spi ((idBuffer mem').take 2) 2] }) := by
      simp only [nand_spi_flash_init, hs, h2a, ne_eq, hrc, not_false_eq_true, if_true]
    rw [e1, e2]
    exact ⟨rfl, rfl⟩

/-- Witness for the amended C13: two runs answering 0x98, 0xCD whose local
arrays both hold 0 at offset 1. -/
theorem init_outcome_determined_witness :
    initOutcome (nand_spi_flash_init (initialState ()) (answering 0x98 0xCD) zeroMem)
      = initOutcome (nand_spi_flash_init (initialState ()) (answering 0x98 0xCD)
          { stack := fun i => if i = 1 then 0 else 7, heap := fun _ => 1 }) ∧
    (initOutcome (nand_spi_flash_init (initialState ()) (answering 0x98 0xCD) zeroMem)).isSome
      = true :=
  init_outcome_determined (initialState ()) (answering 0x98 0xCD) (answering 0x98 0xCD) zeroMem
    { stack := fun i => if i = 1 then 0 else 7, heap := fun _ => 1 } 0 0x98 0xCD rfl
    ⟨by rfl, by rfl⟩ ⟨by rfl, by rfl⟩ (by rfl)

/-! ## C16: deinit -/

/-- C16. nand_spi_flash_deinit returns OK from every state; when no session is
live it gives the state back unchanged; a second deinit returns OK and gives
back the state the first one left; and no session is live afterwards. -/
theorem deinit_ok_noop_idempotent {δ : Type} (s : State δ) :
    (nand_spi_flash_deinit s).1 = NSF_ERR_OK ∧ NSF_ERR_OK = 0 ∧
    (¬ live s → nand_spi_flash_deinit s = (NSF_ERR_OK, s)) ∧
    nand_spi_flash_deinit (nand_spi_flash_deinit s).2
      = (NSF_ERR_OK, (nand_spi_flash_deinit s).2) ∧
    ¬ live (nand_spi_flash_deinit s).2 := by
  obtain ⟨c, b, p, bs, bc, d, tr⟩ := s
  cases b with
  | none => simp [nand_spi_flash_deinit, live, NSF_ERR_OK]
  | some buf => simp [nand_spi_flash_deinit, live, NSF_ERR_OK]

/-- Witness for C16: deinit in the initial state changes nothing. -/
theorem deinit_ok_noop_idempotent_witness :
    nand_spi_flash_deinit (initialState ()) = (NSF_ERR_OK, initialState ()) :=
  (deinit_ok_noop_idempotent (initialState ())).2.2.1 (by simp [live, initialState])

/-! ## C14: the return values of the page and block operations -/

/-- The return values of nand_spi_flash_page_write: DataTooBig exactly when the
bounds check fails, and otherwise TransportFailure, NSF_ERR_ERASE or data_len. -/
theorem page_write_result {δ : Type} (fuel : Nat) (s : State δ)
    (row_address col_address : Nat) (data : List Nat) (data_len : Nat)
    (r : Int) (s1 : State δ)
    (h : nand_spi_flash_page_write fuel s row_address col_address data data_len = .ok (r, s1)) :
    (r = NSF_ERR_DATA_TOO_BIG ∧ data_len + col_address > s.m_nsf_page_size_bytes) ∨
    (data_len + col_address ≤ s.m_nsf_page_size_bytes ∧
      (r = NSF_ERROR_SPI ∨ r = NSF_ERR_ERASE ∨ r = (data_len : Int))) := by
  rw [page_write_eq] at h
  split at h
  · rename_i hbig
    injection h with h
    exact Or.inl ⟨(congrArg Prod.fst h).symm, hbig⟩
  · rename_i hsmall
    refine Or.inr ⟨not_lt.mp hsmall, ?_⟩
    obtain ⟨a, _, h⟩ := Res.bind_eq_ok _ _ _ h
    split at h
    · injection h with h
      exact Or.inl (congrArg Prod.fst h).symm
    · obtain ⟨p, _, h⟩ := Res.bind_eq_ok _ _ _ h
      injection h with h
      have hr := (congrArg Prod.fst h).symm
      simp only at hr
      split at hr
      · exact Or.inr (Or.inl hr)
      · exact Or.inr (Or.inr hr)

/-- The return values of nand_spi_flash_block_erase. -/
theorem block_erase_result {δ : Type} (fuel : Nat) (s : State δ) (row_address : Nat)
    (r : Int) (s1 : State δ)
    (h : nand_spi_flash_block_erase fuel s row_address = .ok (r, s1)) :
    r = NSF_ERROR_SPI ∨ r = NSF_ERR_ERASE ∨ r = NSF_ERR_OK := by
  rw [block_erase_eq] at h
  obtain ⟨a, _, h⟩ := Res.bind_eq_ok _ _ _ h
  split at h
  · injection h with h
    exact Or.inl (congrArg Prod.fst h).symm
  · obtain ⟨p, _, h⟩ := Res.bind_eq_ok _ _ _ h
    injection h with h
    have hr := (congrArg Prod.fst h).symm
    simp only at hr
    split at hr
    · exact Or.inr (Or.inl hr)
    · exact Or.inr (Or.inr hr)

/-- C14. Whenever it returns, nand_spi_flash_page_read returns read_len or one
of -5, -6, -100; nand_spi_flash_page_write returns data_len or one of -6, -7,
-8, -100 (in fact never -8); nand_spi_flash_block_erase returns 0 or one of
-7, -100. A return value that is not negative is the count itself, and the
count is then within the page: read_len is at most page_size_bytes, and
col_address + data_len is at most page_size_bytes, so with a 16-bit page size
the count is at most 65535 and the conversion to int keeps it non-negative. -/
theorem operations_return_count_or_code {δ : Type} (fuel : Nat) (s : State δ)
    (row_address col_address : Nat) (buffer data : List Nat) (read_len data_len : Nat) :
    (∀ (r : Int) (out : List Nat) (s1 : State δ),
      nand_spi_flash_page_read fuel s row_address col_address buffer read_len = .ok (r, out, s1) →
      (r = (read_len : Int) ∨ r = -5 ∨ r = -6 ∨ r = -100) ∧
      (0 ≤ r → r = (read_len : Int) ∧ read_len ≤ nand_spi_flash_page_size_bytes s)) ∧
    (∀ (r : Int) (s1 : State δ),
      nand_spi_flash_page_write fuel s row_address col_address data data_len = .ok (r, s1) →
      (r = (data_len : Int) ∨ r = -6 ∨ r = -7 ∨ r = -8 ∨ r = -100) ∧ r ≠ -8 ∧
      (0 ≤ r → r = (data_len : Int) ∧
        col_address + data_len ≤ nand_spi_flash_page_size_bytes s)) ∧
    (∀ (r : Int) (s1 : State δ),
      nand_spi_flash_block_erase fuel s row_address = .ok (r, s1) →
      r = 0 ∨ r = -7 ∨ r = -100) ∧
    (nand_spi_flash_page_size_bytes s ≤ 65535 →
      ∀ n : Nat, n ≤ nand_spi_flash_page_size_bytes s → 0 ≤ (n : Int) ∧ (n : Int) < 2 ^ 31) := by
  have hnn : ∀ n : Nat, (0 : Int) ≤ (n : Int) := fun n => Int.ofNat_nonneg n
  refine ⟨?_, ?_, ?_, ?_⟩
  · intro r out s1 h
    unfold nand_spi_flash_page_size_bytes
    rcases page_read_result fuel s row_address col_address buffer read_len r out s1 h with
      ⟨h, _⟩ | ⟨hle, h | h | h⟩
    · subst h
      exact ⟨by simp [NSF_ERR_DATA_TOO_BIG], fun h0 => absurd h0 (by decide)⟩
    · subst h
      exact ⟨by simp [NSF_ERROR_SPI], fun h0 => absurd h0 (by decide)⟩
    · subst h
      exact ⟨by simp [NSF_ERR_BAD_BLOCK], fun h0 => absurd h0 (by decide)⟩
    · exact ⟨Or.inl h, fun _ => ⟨h, hle⟩⟩
  · intro r s1 h
    unfold nand_spi_flash_page_size_bytes
    rcases page_write_result fuel s row_address col_address data data_len r s1 h with
      ⟨h, _⟩ | ⟨hle, h | h | h⟩
    · subst h
      exact ⟨by simp [NSF_ERR_DATA_TOO_BIG], by decide, fun h0 => absurd h0 (by decide)⟩
    · subst h
      exact ⟨by simp [NSF_ERROR_SPI], by decide, fun h0 => absurd h0 (by decide)⟩
    · subst h
      exact ⟨by simp [NSF_ERR_ERASE], by decide, fun h0 => absurd h0 (by decide)⟩
    · refine ⟨Or.inl h, ?_, fun _ => ⟨h, by omega⟩⟩
      have := hnn data_len
      omega
  · intro r s1 h
    rcases block_erase_result fuel s row_address r s1 h with h | h | h
    · exact Or.inr (Or.inr h)
    · exact Or.inr (Or.inl h)
    · exact Or.inl h
  · intro hP n hn
    exact ⟨hnn n, by omega⟩

/-- Witness for C14: a read of 2 bytes that succeeds returns 2, which is at most
the page size 4. -/
theorem operations_return_count_or_code_witness :
    ((2 : Int) = ((2 : Nat) : Int) ∨ (2 : Int) = -5 ∨ (2 : Int) = -6 ∨ (2 : Int) = -100) ∧
    ((0 : Int) ≤ 2 → (2 : Int) = ((2 : Nat) : Int) ∧
      2 ≤ nand_spi_flash_page_size_bytes (smallSession (commandsThenStatus 1 0 0x00))) :=
  (operations_return_count_or_code 3 (smallSession (commandsThenStatus 1 0 0x00)) 5 0 [9, 9]
    [] 2 0).1 2 [0, 0]
    { smallSession [] with
        m_nsf_buffer := some [0x03, 0, 0, 0, 0, 0, 0, 0],
        trace := [Event.spi [0x13, 0, 0, 5] 0] ++ pollEvents 1 ++ [Event.spi [0x03, 0, 0, 0] 2] }
    (by rfl)

/-! ## C11: what the operations leave alone -/

theorem sameSession.refl {δ : Type} (s : State δ) : sameSession s s := ⟨rfl, rfl, rfl⟩

theorem sameSession.trans {δ : Type} {s s1 s2 : State δ} (h1 : sameSession s s1)
    (h2 : sameSession s1 s2) : sameSession s s2 :=
  ⟨h2.1.trans h1.1, h2.2.1.trans h1.2.1, h2.2.2.trans h1.2.2⟩

theorem writeBack_length (buf out : List Nat) : (writeBack buf out).length = buf.length := by
  simp only [writeBack, List.length_map, List.length_append, List.length_take, List.length_drop]
  omega

theorem store_same {δ : Type} (s s1 : State δ) (i v : Nat) (h : store s i v = .ok s1) :
    sameSession s s1 := by
  unfold store at h
  split at h
  · simp at h
  · rename_i buf hb
    split at h
    · injection h with h
      subst h
      exact ⟨rfl, rfl, by simp [hb]⟩
    · simp at h

theorem call_spi_transfer_same {δ : Type} (s : State δ) (tx_len rx_len : Nat)
    (r : Int × State δ) (h : call_spi_transfer s tx_len rx_len = .ok r) :
    sameSession s r.2 := by
  unfold call_spi_transfer at h
  split at h
  · rename_i cfg buf hc hb
    split at h
    · injection h with h
      subst h
      exact ⟨rfl, rfl, by simp [hb, exchange, writeBack_length]⟩
    · simp at h
  · simp at h

theorem call_delay_us_same {δ : Type} (s s1 : State δ) (us : Nat)
    (h : call_delay_us s us = .ok s1) : sameSession s s1 := by
  unfold call_delay_us at h
  split at h
  · injection h with h
    subst h
    exact ⟨rfl, rfl, rfl⟩
  · simp at h

theorem copy_in_same {δ : Type} (s s1 : State δ) (off : Nat) (data : List Nat) (n : Nat)
    (h : copy_in s off data n = .ok s1) : sameSession s s1 := by
  unfold copy_in at h
  split at h
  · simp at h
  · rename_i buf hb
    split at h
    · rename_i hle
      injection h with h
      subst h
      refine ⟨rfl, rfl, ?_⟩
      simp only [hb, Option.map_some', List.length_append, List.length_take, List.length_map,
        List.length_drop, Option.some.injEq]
      omega
    · simp at h

theorem keeps_ok {δ α : Type} {s0 : State δ} {a : α} {proj : α → State δ}
    (h : sameSession s0 (proj a)) : Keeps s0 (.ok a) proj := by
  intro b hb
  injection hb with hb
  subst hb
  exact h

theorem keeps_ite {δ α : Type} {s0 : State δ} {c : Prop} [Decidable c] {x y : Res α}
    {proj : α → State δ} (hx : Keeps s0 x proj) (hy : Keeps s0 y proj) :
    Keeps s0 (if c then x else y) proj := by
  split
  · exact hx
  · exact hy

theorem keeps_bind_store {δ β : Type} {s0 s : State δ} {i v : Nat} {f : State δ → Res β}
    {proj : β → State δ} (hs : sameSession s0 s)
    (hf : ∀ s1, sameSession s0 s1 → Keeps s0 (f s1) proj) :
    Keeps s0 ((store s i v).bind f) proj := by
  intro b hb
  obtain ⟨s1, h1, h2⟩ := Res.bind_eq_ok _ _ _ hb
  exact hf s1 (hs.trans (store_same s s1 i v h1)) b h2

theorem keeps_bind_transfer {δ β : Type} {s0 s : State δ} {tx_len rx_len : Nat}
    {f : Int × State δ → Res β} {proj : β → State δ} (hs : sameSession s0 s)
    (hf : ∀ r : Int × State δ, sameSession s0 r.2 → Keeps s0 (f r) proj) :
    Keeps s0 ((call_spi_transfer s tx_len rx_len).bind f) proj := by
  intro b hb
  obtain ⟨r, h1, h2⟩ := Res.bind_eq_ok _ _ _ hb
  exact hf r (hs.trans (call_spi_transfer_same s tx_len rx_len r h1)) b h2

theorem keeps_bind_delay {δ β : Type} {s0 s : State δ} {us : Nat} {f : State δ → Res β}
    {proj : β → State δ} (hs : sameSession s0 s)
    (hf : ∀ s1, sameSession s0 s1 → Keeps s0 (f s1) proj) :
    Keeps s0 ((call_delay_us s us).bind f) proj := by
  intro b hb
  obtain ⟨s1, h1, h2⟩ := Res.bind_eq_ok _ _ _ hb
  exact hf s1 (hs.trans (call_delay_us_same s s1 us h1)) b h2

theorem keeps_bind_copy_in {δ β : Type} {s0 s : State δ} {off n : Nat} {data : List Nat}
    {f : State δ → Res β} {proj : β → State δ} (hs : sameSession s0 s)
    (hf : ∀ s1, sameSession s0 s1 → Keeps s0 (f s1) proj) :
    Keeps s0 ((copy_in s off data n).bind f) proj := by
  intro b hb
  obtain ⟨s1, h1, h2⟩ := Res.bind_eq_ok _ _ _ hb
  exact hf s1 (hs.trans (copy_in_same s s1 off data n h1)) b h2

theorem keeps_bind_pure {δ α β : Type} {s0 : State δ} {x : Res α} {f : α → Res β}
    {proj : β → State δ} (hf : ∀ a, Keeps s0 (f a) proj) : Keeps s0 (x.bind f) proj := by
  intro b hb
  obtain ⟨a, _, h2⟩ := Res.bind_eq_ok _ _ _ hb
  exact hf a b h2

theorem keeps_bind_of {δ α β : Type} {s0 : State δ} {x : Res α} {f : α → Res β}
    {pa : α → State δ} {proj : β → State δ} (hx : Keeps s0 x pa)
    (hf : ∀ a, sameSession s0 (pa a) → Keeps s0 (f a) proj) :
    Keeps s0 (x.bind f) proj := by
  intro b hb
  obtain ⟨a, h1, h2⟩ := Res.bind_eq_ok _ _ _ hb
  exact hf a (hx a h1) b h2

theorem read_status_body_keeps {δ : Type} {s0 s : State δ} (hs : sameSession s0 s) :
    Keeps s0 (read_status_body s) id := by
  unfold read_status_body
  apply keeps_bind_delay hs
  intro s1 h1
  apply keeps_bind_store h1
  intro s2 h2
  apply keeps_bind_store h2
  intro s3 h3
  apply keeps_bind_transfer h3
  intro r hr
  exact keeps_ok hr

theorem read_status_loop_keeps {δ : Type} (fuel : Nat) : ∀ {s0 s : State δ},
    sameSession s0 s → Keeps s0 (read_status_loop fuel s) Prod.snd := by
  induction fuel with
  | zero =>
    intro s0 s _ a ha
    simp [read_status_loop] at ha
  | succ fuel ih =>
    intro s0 s hs
    rw [read_status_loop]
    apply keeps_bind_pure
    intro b
    apply keeps_ite
    · intro a ha
      obtain ⟨s1, h1, h2⟩ := Res.bind_eq_ok _ _ _ ha
      exact ih (read_status_body_keeps hs s1 h1) a h2
    · apply keeps_bind_pure
      intro v
      exact keeps_ok hs

theorem read_status_keeps {δ : Type} (fuel : Nat) {s0 s : State δ} (hs : sameSession s0 s) :
    Keeps s0 (nand_spi_flash_read_status fuel s) Prod.snd := by
  unfold nand_spi_flash_read_status
  apply keeps_bind_store hs
  intro s1 h1
  exact read_status_loop_keeps fuel h1

theorem keeps_bind_read_status {δ β : Type} {s0 s : State δ} {fuel : Nat}
    {f : Nat × State δ → Res β} {proj : β → State δ} (hs : sameSession s0 s)
    (hf : ∀ p : Nat × State δ, sameSession s0 p.2 → Keeps s0 (f p) proj) :
    Keeps s0 ((nand_spi_flash_read_status fuel s).bind f) proj := by
  intro b hb
  obtain ⟨p, h1, h2⟩ := Res.bind_eq_ok _ _ _ hb
  exact hf p (read_status_keeps fuel hs p h1) b h2

theorem page_read_load_keeps {δ : Type} {s0 s : State δ} (row_address : Nat)
    (hs : sameSession s0 s) : Keeps s0 (page_read_load s row_address) Prod.snd := by
  unfold page_read_load
  refine keeps_bind_store hs fun s1 h1 => ?_
  refine keeps_bind_store h1 fun s2 h2 => ?_
  refine keeps_bind_store h2 fun s3 h3 => ?_
  refine keeps_bind_store h3 fun s4 h4 => ?_
  intro r hr
  exact h4.trans (call_spi_transfer_same _ _ _ r hr)

theorem page_read_fetch_keeps {δ : Type} {s0 s : State δ} (col_address : Nat)
    (buffer : List Nat) (read_len : Nat) (hs : sameSession s0 s) :
    Keeps s0 (page_read_fetch s col_address buffer read_len) (fun a => a.2.2) := by
  unfold page_read_fetch
  refine keeps_bind_store hs fun s1 h1 => ?_
  refine keeps_bind_store h1 fun s2 h2 => ?_
  refine keeps_bind_store h2 fun s3 h3 => ?_
  refine keeps_bind_store h3 fun s4 h4 => ?_
  refine keeps_bind_transfer h4 fun r hr => ?_
  refine keeps_ite (keeps_ok hr) ?_
  exact keeps_bind_pure fun out => keeps_ok hr

theorem page_read_keeps {δ : Type} (fuel : Nat) (s : State δ)
    (row_address col_address : Nat) (buffer : List Nat) (read_len : Nat) :
    Keeps s (nand_spi_flash_page_read fuel s row_address col_address buffer read_len)
      (fun a => a.2.2) := by
  rw [page_read_eq]
  refine keeps_ite (keeps_ok (sameSession.refl s)) ?_
  refine keeps_bind_of (page_read_load_keeps row_address (sameSession.refl s)) fun r hr => ?_
  refine keeps_ite (keeps_ok hr) ?_
  refine keeps_bind_read_status hr fun p hp => ?_
  exact keeps_ite (keeps_ok hp) (page_read_fetch_keeps col_address buffer read_len hp)

theorem page_write_commands_keeps {δ : Type} {s0 s : State δ} (row_address col_address : Nat)
    (data : List Nat) (data_len : Nat) (hs : sameSession s0 s) :
    Keeps s0 (page_write_commands s row_address col_address data data_len) Prod.snd := by
  unfold page_write_commands
  refine keeps_bind_store hs fun s1 h1 => ?_
  refine keeps_bind_transfer h1 fun r1 hr1 => ?_
  refine keeps_ite (keeps_ok hr1) ?_
  refine keeps_bind_store hr1 fun s2 h2 => ?_
  refine keeps_bind_store h2 fun s3 h3 => ?_
  refine keeps_bind_store h3 fun s4 h4 => ?_
  refine keeps_bind_copy_in h4 fun s5 h5 => ?_
  refine keeps_bind_transfer h5 fun r2 hr2 => ?_
  refine keeps_ite (keeps_ok hr2) ?_
  refine keeps_bind_store hr2 fun s6 h6 => ?_
  refine keeps_bind_store h6 fun s7 h7 => ?_
  refine keeps_bind_store h7 fun s8 h8 => ?_
  refine keeps_bind_store h8 fun s9 h9 => ?_
  refine keeps_bind_transfer h9 fun r3 hr3 => ?_
  exact keeps_ite (keeps_ok hr3) (keeps_ok hr3)

theorem block_erase_commands_keeps {δ : Type} {s0 s : State δ} (row_address : Nat)
    (hs : sameSession s0 s) :
    Keeps s0 (block_erase_commands s row_address) Prod.snd := by
  unfold block_erase_commands
  refine keeps_bind_store hs fun s1 h1 => ?_
  refine keeps_bind_transfer h1 fun r1 hr1 => ?_
  refine keeps_ite (keeps_ok hr1) ?_
  refine keeps_bind_store hr1 fun s2 h2 => ?_
  refine keeps_bind_store h2 fun s3 h3 => ?_
  refine keeps_bind_store h3 fun s4 h4 => ?_
  refine keeps_bind_store h4 fun s5 h5 => ?_
  refine keeps_bind_transfer h5 fun r2 hr2 => ?_
  exact keeps_ite (keeps_ok hr2) (keeps_ok hr2)

theorem page_write_keeps {δ : Type} (fuel : Nat) (s : State δ)
    (row_address col_address : Nat) (data : List Nat) (data_len : Nat) :
    Keeps s (nand_spi_flash_page_write fuel s row_address col_address data data_len)
      Prod.snd := by
  rw [page_write_eq]
  refine keeps_ite (keeps_ok (sameSession.refl s)) ?_
  refine keeps_bind_of (page_write_commands_keeps row_address col_address data data_len
    (sameSession.refl s)) fun r hr => ?_
  refine keeps_ite (keeps_ok hr) ?_
  exact keeps_bind_read_status hr fun p hp => keeps_ok hp

theorem block_erase_keeps {δ : Type} (fuel : Nat) (s : State δ) (row_address : Nat) :
    Keeps s (nand_spi_flash_block_erase fuel s row_address) Prod.snd := by
  rw [block_erase_eq]
  refine keeps_bind_of (block_erase_commands_keeps row_address (sameSession.refl s))
    fun r hr => ?_
  refine keeps_ite (keeps_ok hr) ?_
  exact keeps_bind_read_status hr fun p hp => keeps_ok hp

theorem reset_unlock_keeps {δ : Type} (fuel : Nat) (s : State δ) :
    Keeps s (nand_spi_flash_reset_unlock fuel s) Prod.snd := by
  unfold nand_spi_flash_reset_unlock
  refine keeps_bind_store (sameSession.refl s) fun s1 h1 => ?_
  refine keeps_bind_transfer h1 fun r1 hr1 => ?_
  refine keeps_ite (keeps_ok hr1) ?_
  refine keeps_bind_read_status hr1 fun p hp => ?_
  refine keeps_bind_store hp fun s2 h2 => ?_
  refine keeps_bind_store h2 fun s3 h3 => ?_
  refine keeps_bind_store h3 fun s4 h4 => ?_
  refine keeps_bind_transfer h4 fun r2 hr2 => ?_
  exact keeps_ite (keeps_ok hr2) (keeps_ok hr2)

/-- C11. Whatever they return, nand_spi_flash_block_erase,
nand_spi_flash_page_read, nand_spi_flash_page_write,
nand_spi_flash_reset_unlock and nand_spi_flash_read_status end in a state with
the stored config and the geometry (page_size_bytes, block_size_pages,
blocks_count) they started with, for every starting state and every
transport; so does an erase that returns EraseFailure. -/
theorem operations_leave_geometry_and_config {δ : Type} (fuel : Nat) (s : State δ)
    (row_address col_address : Nat) (buffer data : List Nat) (read_len data_len : Nat) :
    (∀ (r : Int) (s1 : State δ), nand_spi_flash_block_erase fuel s row_address = .ok (r, s1) →
      s1.m_nsf_config = s.m_nsf_config ∧ geometry s1 = geometry s) ∧
    (∀ (r : Int) (out : List Nat) (s1 : State δ),
      nand_spi_flash_page_read fuel s row_address col_address buffer read_len = .ok (r, out, s1) →
      s1.m_nsf_config = s.m_nsf_config ∧ geometry s1 = geometry s) ∧
    (∀ (r : Int) (s1 : State δ),
      nand_spi_flash_page_write fuel s row_address col_address data data_len = .ok (r, s1) →
      s1.m_nsf_config = s.m_nsf_config ∧ geometry s1 = geometry s) ∧
    (∀ (r : Int) (s1 : State δ), nand_spi_flash_reset_unlock fuel s = .ok (r, s1) →
      s1.m_nsf_config = s.m_nsf_config ∧ geometry s1 = geometry s) ∧
    (∀ (st : Nat) (s1 : State δ), nand_spi_flash_read_status fuel s = .ok (st, s1) →
      s1.m_nsf_config = s.m_nsf_config ∧ geometry s1 = geometry s) := by
  refine ⟨?_, ?_, ?_, ?_, ?_⟩
  · intro r s1 h
    have := block_erase_keeps fuel s row_address (r, s1) h
    exact ⟨this.1, this.2.1⟩
  · intro r out s1 h
    have := page_read_keeps fuel s row_address col_address buffer read_len (r, out, s1) h
    exact ⟨this.1, this.2.1⟩
  · intro r s1 h
    have := page_write_keeps fuel s row_address col_address data data_len (r, s1) h
    exact ⟨this.1, this.2.1⟩
  · intro r s1 h
    have := reset_unlock_keeps fuel s (r, s1) h
    exact ⟨this.1, this.2.1⟩
  · intro st s1 h
    have := read_status_keeps fuel (sameSession.refl s) (st, s1) h
    exact ⟨this.1, this.2.1⟩

/-- Witness for C11: a block erase whose status poll ends with the
erase-failure bit set returns -7 and leaves config and geometry as they were. -/
theorem operations_leave_geometry_and_config_witness :
    ({ smallSession [] with
         m_nsf_buffer := some [0x0F, 0xC0, 0x04, 5, 0, 0, 0, 0],
         trace := [Event.spi [0x06] 0, Event.spi [0xD8, 0, 0, 5] 0] ++ pollEvents 1 }
      : State (List (Int × List Nat))).m_nsf_config
        = (smallSession (commandsThenStatus 2 0 0x04)).m_nsf_config ∧
    geometry ({ smallSession [] with
         m_nsf_buffer := some [0x0F, 0xC0, 0x04, 5, 0, 0, 0, 0],
         trace := [Event.spi [0x06] 0, Event.spi [0xD8, 0, 0, 5] 0] ++ pollEvents 1 }
      : State (List (Int × List Nat)))
        = geometry (smallSession (commandsThenStatus 2 0 0x04)) :=
  (operations_leave_geometry_and_config 3 (smallSession (commandsThenStatus 2 0 0x04)) 5 0 [] []
    0 0).1 NSF_ERR_ERASE _ (by rfl)

/-! ## C15: the accessors before a successful init -/

theorem init_failed_geometry {δ : Type} (s s1 : State δ) (config : Config δ)
    (mem : Indeterminate) (r : Int) (h : nand_spi_flash_init s config mem = .ok (r, s1))
    (hr : r ≠ NSF_ERR_OK) : geometry s1 = geometry s := by
  unfold nand_spi_flash_init at h
  split at h
  · injection h with h
    injection h with h1 h2
    subst h2
    rfl
  · simp only at h
    split_ifs at h <;>
    · injection h with h
      injection h with h1 h2
      first
        | exact absurd h1.symm hr
        | (subst h2; rfl)

/-- C15. In every state reachable from the initial state by calls of the
driver's functions among which no nand_spi_flash_init returned OK (failed
inits, deinit, and any of the other operations that return), the three
accessors return 0. -/
theorem accessors_zero_before_init {δ : Type} (d : δ) (s : State δ)
    (h : UninitReachable d s) :
    nand_spi_flash_page_size_bytes s = 0 ∧ nand_spi_flash_block_size_pages s = 0 ∧
    nand_spi_flash_blocks_count s = 0 := by
  have hg : geometry s = (0, 0, 0) := by
    induction h with
    | start => rfl
    | init s s1 config mem r _ hi hr ih =>
      rw [init_failed_geometry s s1 config mem r hi hr, ih]
    | deinit s _ ih =>
      rw [← ih]
      unfold nand_spi_flash_deinit
      split <;> rfl
    | read_status s s1 fuel st _ hc ih =>
      rw [(read_status_keeps fuel (sameSession.refl s) (st, s1) hc).2.1, ih]
    | page_read s s1 fuel row_address col_address buffer read_len r out _ hc ih =>
      rw [(page_read_keeps fuel s row_address col_address buffer read_len (r, out, s1) hc).2.1,
        ih]
    | page_write s s1 fuel row_address col_address data data_len r _ hc ih =>
      rw [(page_write_keeps fuel s row_address col_address data data_len (r, s1) hc).2.1, ih]
    | block_erase s s1 fuel row_address r _ hc ih =>
      rw [(block_erase_keeps fuel s row_address (r, s1) hc).2.1, ih]
    | reset_unlock s s1 fuel r _ hc ih =>
      rw [(reset_unlock_keeps fuel s (r, s1) hc).2.1, ih]
  simp only [geometry, Prod.mk.injEq] at hg
  exact hg

/-- Witness for C15: an init that fails as UnknownDevice, a rejected page read
and a deinit leave the three accessors at 0. -/
theorem accessors_zero_before_init_witness :
    nand_spi_flash_page_size_bytes (nand_spi_flash_deinit
      ({ initialState [] with m_nsf_config := some scripted, trace := [Event.spi [0x9F, 0] 2] }
        : State (List (Int × List Nat)))).2 = 0 ∧
    nand_spi_flash_block_size_pages (nand_spi_flash_deinit
      ({ initialState [] with m_nsf_config := some scripted, trace := [Event.spi [0x9F, 0] 2] }
        : State (List (Int × List Nat)))).2 = 0 ∧
    nand_spi_flash_blocks_count (nand_spi_flash_deinit
      ({ initialState [] with m_nsf_config := some scripted, trace := [Event.spi [0x9F, 0] 2] }
        : State (List (Int × List Nat)))).2 = 0 :=
  accessors_zero_before_init [((0 : Int), [0x9F, 0, 0x11, 0x22])] _
    (UninitReachable.deinit _
      (UninitReachable.page_read _ _ 0 0 0 [] 1 NSF_ERR_DATA_TOO_BIG []
        (UninitReachable.init _ _ scripted zeroMem NSF_ERR_UNKNOWN_DEVICE UninitReachable.start
          (by rfl) (by decide))
        (by rfl)))

/-! ## C20: scratch-buffer bounds -/

theorem Shape.of_same {δ : Type} {L : Nat} {s s1 : State δ} (hs : Shape L s)
    (h : sameSession s s1) : Shape L s1 :=
  ⟨by rw [h.1]; exact hs.1, by rw [h.2.2]; exact hs.2⟩

theorem Shape.buffer {δ : Type} {L : Nat} {s : State δ} (hs : Shape L s) :
    ∃ cfg buf, s.m_nsf_config = some cfg ∧ s.m_nsf_buffer = some buf ∧ buf.length = L := by
  obtain ⟨hc, hb⟩ := hs
  cases hcfg : s.m_nsf_config with
  | none => exact absurd hcfg hc
  | some cfg =>
    cases hbuf : s.m_nsf_buffer with
    | none => simp [hbuf] at hb
    | some buf => exact ⟨cfg, buf, rfl, rfl, by simpa [hbuf] using hb⟩

theorem inBounds_ok {α : Type} (a : α) : inBounds (Res.ok a) := by
  intro e h
  simp at h

theorem inBounds_ite {α : Type} {c : Prop} [Decidable c] {x y : Res α}
    (hx : c → inBounds x) (hy : ¬ c → inBounds y) : inBounds (if c then x else y) := by
  split
  · rename_i h
    exact hx h
  · rename_i h
    exact hy h

theorem inBounds_bind_of {α β : Type} {x : Res α} {f : α → Res β} (hx : inBounds x)
    (hf : ∀ a, x = .ok a → inBounds (f a)) : inBounds (x.bind f) := by
  cases x with
  | ok a => exact hf a rfl
  | fault e0 =>
    intro e h
    simp only [Res.bind_fault] at h
    injection h with h
    subst h
    exact hx e0 rfl

theorem inBounds_bind_store {δ β : Type} {L : Nat} {s : State δ} {i v : Nat}
    {f : State δ → Res β} (hs : Shape L s) (hi : i < L)
    (hf : ∀ s1, Shape L s1 → inBounds (f s1)) : inBounds ((store s i v).bind f) := by
  obtain ⟨cfg, buf, _, hb, hl⟩ := hs.buffer
  have hst : store s i v = .ok { s with m_nsf_buffer := some (buf.set i (v % 256)) } := by
    simp [store, hb, hl, hi]
  rw [hst, Res.bind_ok]
  exact hf _ (hs.of_same (store_same _ _ _ _ hst))

theorem inBounds_bind_load {δ β : Type} {L : Nat} {s : State δ} {i : Nat}
    {f : Nat → Res β} (hs : Shape L s) (hi : i < L)
    (hf : ∀ b, inBounds (f b)) : inBounds ((load s i).bind f) := by
  obtain ⟨cfg, buf, _, hb, hl⟩ := hs.buffer
  have hld : load s i = .ok (buf.getD i 0) := by
    simp [load, hb, hl, hi]
  rw [hld, Res.bind_ok]
  exact hf _

theorem inBounds_bind_transfer {δ β : Type} {L : Nat} {s : State δ} {tx_len rx_len : Nat}
    {f : Int × State δ → Res β} (hs : Shape L s) (hi : tx_len + rx_len ≤ L)
    (hf : ∀ r : Int × State δ, Shape L r.2 → inBounds (f r)) :
    inBounds ((call_spi_transfer s tx_len rx_len).bind f) := by
  obtain ⟨cfg, buf, hc, hb, hl⟩ := hs.buffer
  obtain ⟨r, hr⟩ : ∃ r, call_spi_transfer s tx_len rx_len = .ok r := by
    simp [call_spi_transfer, hc, hb, hl, hi]
  rw [hr, Res.bind_ok]
  exact hf _ (hs.of_same (call_spi_transfer_same _ _ _ _ hr))

theorem inBounds_bind_delay {δ β : Type} {L : Nat} {s : State δ} {us : Nat}
    {f : State δ → Res β} (hs : Shape L s)
    (hf : ∀ s1, Shape L s1 → inBounds (f s1)) : inBounds ((call_delay_us s us).bind f) := by
  obtain ⟨cfg, buf, hc, hb, hl⟩ := hs.buffer
  obtain ⟨r, hr⟩ : ∃ r, call_delay_us s us = .ok r := by
    simp [call_delay_us, hc]
  rw [hr, Res.bind_ok]
  exact hf _ (hs.of_same (call_delay_us_same _ _ _ hr))

theorem inBounds_bind_copy_in {δ β : Type} {L : Nat} {s : State δ} {off n : Nat}
    {data : List Nat} {f : State δ → Res β} (hs : Shape L s) (hi : off + n ≤ L)
    (hd : n ≤ data.length)
    (hf : ∀ s1, Shape L s1 → inBounds (f s1)) : inBounds ((copy_in s off data n).bind f) := by
  obtain ⟨cfg, buf, hc, hb, hl⟩ := hs.buffer
  obtain ⟨r, hr⟩ : ∃ r, copy_in s off data n = .ok r := by
    simp [copy_in, hb, hl, hi, hd]
  rw [hr, Res.bind_ok]
  exact hf _ (hs.of_same (copy_in_same _ _ _ _ _ hr))

theorem inBounds_bind_copy_out {δ β : Type} {L : Nat} {s : State δ} {off n : Nat}
    {buffer : List Nat} {f : List Nat → Res β} (hs : Shape L s) (hi : off + n ≤ L)
    (hd : n ≤ buffer.length)
    (hf : ∀ out, inBounds (f out)) : inBounds ((copy_out s off n buffer).bind f) := by
  obtain ⟨cfg, buf, hc, hb, hl⟩ := hs.buffer
  obtain ⟨r, hr⟩ : ∃ r, copy_out s off n buffer = .ok r := by
    simp [copy_out, hb, hl, hi, hd]
  rw [hr, Res.bind_ok]
  exact hf _

theorem read_status_body_inBounds {δ : Type} {L : Nat} {s : State δ} (hs : Shape L s)
    (hL : 3 ≤ L) : inBounds (read_status_body s) := by
  unfold read_status_body
  refine inBounds_bind_delay hs fun s1 h1 => ?_
  refine inBounds_bind_store h1 (by omega) fun s2 h2 => ?_
  refine inBounds_bind_store h2 (by omega) fun s3 h3 => ?_
  refine inBounds_bind_transfer h3 (by omega) fun r hr => ?_
  exact inBounds_ok _

theorem read_status_loop_inBounds {δ : Type} {L : Nat} (hL : 3 ≤ L) (fuel : Nat) :
    ∀ {s : State δ}, Shape L s → inBounds (read_status_loop fuel s) := by
  induction fuel with
  | zero =>
    intro s _ e h
    simp only [read_status_loop, Res.fault.injEq] at h
    exact h.symm
  | succ fuel ih =>
    intro s hs
    rw [read_status_loop]
    refine inBounds_bind_load hs (by omega) fun b => ?_
    refine inBounds_ite (fun _ => ?_) (fun _ => ?_)
    · refine inBounds_bind_of (read_status_body_inBounds hs hL) fun s1 h1 => ?_
      exact ih (hs.of_same (read_status_body_keeps (sameSession.refl s) s1 h1))
    · exact inBounds_bind_load hs (by omega) fun v => inBounds_ok _

theorem read_status_inBounds {δ : Type} {L : Nat} (hL : 3 ≤ L) (fuel : Nat) {s : State δ}
    (hs : Shape L s) : inBounds (nand_spi_flash_read_status fuel s) := by
  unfold nand_spi_flash_read_status
  exact inBounds_bind_store hs (by omega) fun s1 h1 => read_status_loop_inBounds hL fuel h1

theorem inBounds_bind_read_status {δ β : Type} {L : Nat} {s : State δ} {fuel : Nat}
    {f : Nat × State δ → Res β} (hs : Shape L s) (hL : 3 ≤ L)
    (hf : ∀ p : Nat × State δ, Shape L p.2 → inBounds (f p)) :
    inBounds ((nand_spi_flash_read_status fuel s).bind f) :=
  inBounds_bind_of (read_status_inBounds hL fuel hs) fun p hp =>
    hf p (hs.of_same (read_status_keeps fuel (sameSession.refl s) p hp))

theorem page_read_inBounds {δ : Type} (fuel : Nat) (s : State δ)
    (row_address col_address : Nat) (buffer : List Nat) (read_len : Nat)
    (hs : Shape (s.m_nsf_page_size_bytes + 4) s) (hbuf : read_len ≤ buffer.length) :
    inBounds (nand_spi_flash_page_read fuel s row_address col_address buffer read_len) := by
  unfold nand_spi_flash_page_read
  refine inBounds_ite (fun _ => inBounds_ok _) (fun hlen => ?_)
  refine inBounds_bind_store hs (by omega) fun s1 h1 => ?_
  refine inBounds_bind_store h1 (by omega) fun s2 h2 => ?_
  refine inBounds_bind_store h2 (by omega) fun s3 h3 => ?_
  refine inBounds_bind_store h3 (by omega) fun s4 h4 => ?_
  refine inBounds_bind_transfer h4 (by omega) fun r1 hr1 => ?_
  refine inBounds_ite (fun _ => inBounds_ok _) (fun _ => ?_)
  refine inBounds_bind_read_status hr1 (by omega) fun p hp => ?_
  refine inBounds_ite (fun _ => inBounds_ok _) (fun _ => ?_)
  refine inBounds_bind_store hp (by omega) fun s5 h5 => ?_
  refine inBounds_bind_store h5 (by omega) fun s6 h6 => ?_
  refine inBounds_bind_store h6 (by omega) fun s7 h7 => ?_
  refine inBounds_bind_store h7 (by omega) fun s8 h8 => ?_
  refine inBounds_bind_transfer h8 (by omega) fun r2 hr2 => ?_
  refine inBounds_ite (fun _ => inBounds_ok _) (fun _ => ?_)
  exact inBounds_bind_copy_out hr2 (by omega) hbuf fun out => inBounds_ok _

theorem page_write_inBounds {δ : Type} (fuel : Nat) (s : State δ)
    (row_address col_address : Nat) (data : List Nat) (data_len : Nat)
    (hs : Shape (s.m_nsf_page_size_bytes + 4) s) (hdata : data_len ≤ data.length) :
    inBounds (nand_spi_flash_page_write fuel s row_address col_address data data_len) := by
  unfold nand_spi_flash_page_write
  refine inBounds_ite (fun _ => inBounds_ok _) (fun hlen => ?_)
  have hmod : (data_len + 3) % 65536 ≤ data_len + 3 := Nat.mod_le _ _
  refine inBounds_bind_store hs (by omega) fun s1 h1 => ?_
  refine inBounds_bind_transfer h1 (by omega) fun r1 hr1 => ?_
  refine inBounds_ite (fun _ => inBounds_ok _) (fun _ => ?_)
  refine inBounds_bind_store hr1 (by omega) fun s2 h2 => ?_
  refine inBounds_bind_store h2 (by omega) fun s3 h3 => ?_
  refine inBounds_bind_store h3 (by omega) fun s4 h4 => ?_
  refine inBounds_bind_copy_in h4 (by omega) hdata fun s5 h5 => ?_
  refine inBounds_bind_transfer h5 (by omega) fun r2 hr2 => ?_
  refine inBounds_ite (fun _ => inBounds_ok _) (fun _ => ?_)
  refine inBounds_bind_store hr2 (by omega) fun s6 h6 => ?_
  refine inBounds_bind_store h6 (by omega) fun s7 h7 => ?_
  refine inBounds_bind_store h7 (by omega) fun s8 h8 => ?_
  refine inBounds_bind_store h8 (by omega) fun s9 h9 => ?_
  refine inBounds_bind_transfer h9 (by omega) fun r3 hr3 => ?_
  refine inBounds_ite (fun _ => inBounds_ok _) (fun _ => ?_)
  exact inBounds_bind_read_status hr3 (by omega) fun p hp => inBounds_ok _

theorem block_erase_inBounds {δ : Type} (fuel : Nat) (s : State δ) (row_address : Nat)
    (hs : Shape (s.m_nsf_page_size_bytes + 4) s) :
    inBounds (nand_spi_flash_block_erase fuel s row_address) := by
  unfold nand_spi_flash_block_erase
  refine inBounds_bind_store hs (by omega) fun s1 h1 => ?_
  refine inBounds_bind_transfer h1 (by omega) fun r1 hr1 => ?_
  refine inBounds_ite (fun _ => inBounds_ok _) (fun _ => ?_)
  refine inBounds_bind_store hr1 (by omega) fun s2 h2 => ?_
  refine inBounds_bind_store h2 (by omega) fun s3 h3 => ?_
  refine inBounds_bind_store h3 (by omega) fun s4 h4 => ?_
  refine inBounds_bind_store h4 (by omega) fun s5 h5 => ?_
  refine inBounds_bind_transfer h5 (by omega) fun r2 hr2 => ?_
  refine inBounds_ite (fun _ => inBounds_ok _) (fun _ => ?_)
  exact inBounds_bind_read_status hr2 (by omega) fun p hp => inBounds_ok _

theorem reset_unlock_inBounds {δ : Type} (fuel : Nat) (s : State δ)
    (hs : Shape (s.m_nsf_page_size_bytes + 4) s) :
    inBounds (nand_spi_flash_reset_unlock fuel s) := by
  unfold nand_spi_flash_reset_unlock
  refine inBounds_bind_store hs (by omega) fun s1 h1 => ?_
  refine inBounds_bind_transfer h1 (by omega) fun r1 hr1 => ?_
  refine inBounds_ite (fun _ => inBounds_ok _) (fun _ => ?_)
  refine inBounds_bind_read_status hr1 (by omega) fun p hp => ?_
  refine inBounds_bind_store hp (by omega) fun s2 h2 => ?_
  refine inBounds_bind_store h2 (by omega) fun s3 h3 => ?_
  refine inBounds_bind_store h3 (by omega) fun s4 h4 => ?_
  refine inBounds_bind_transfer h4 (by omega) fun r2 hr2 => ?_
  exact inBounds_ite (fun _ => inBounds_ok _) (fun _ => inBounds_ok _)

theorem init_ok_shape {δ : Type} (s s1 : State δ) (config : Config δ) (mem : Indeterminate)
    (h : nand_spi_flash_init s config mem = .ok (NSF_ERR_OK, s1)) :
    (live s1 → Shape (s1.m_nsf_page_size_bytes + 4) s1) ∧
    s1.m_nsf_page_size_bytes + 3 < 65536 := by
  unfold nand_spi_flash_init at h
  split at h
  · injection h with h
    injection h with h1 h2
    exact absurd h1 (by decide)
  · simp only at h
    split_ifs at h <;>
    · injection h with h
      injection h with h1 h2
      first
        | exact absurd h1 (by decide)
        | (subst h2
           refine ⟨fun hl => ⟨by simp, ?_⟩, by simp⟩
           have hm : mem.malloc_null = false := by
             cases hc : mem.malloc_null
             · rfl
             · simp [live, malloc, hc] at hl
           simp [malloc, hm, NSF_CMD_MAX_BYTES])

/-- C20. For a session stored on a config whose scratch buffer has
page_size_bytes + 4 bytes, and caller buffers that hold read_len and data_len
bytes, none of nand_spi_flash_page_read, nand_spi_flash_page_write,
nand_spi_flash_block_erase, nand_spi_flash_reset_unlock and
nand_spi_flash_read_status indexes the scratch buffer outside
[0, page_size_bytes + 4) or hands the transport a region tx_len + rx_len that
is longer than the buffer: each run returns or runs out of loop fuel. A read
that passes its check uses 4 + read_len bytes, at most page_size_bytes + 4; a
write that passes its check uses 3 + data_len bytes, at most
page_size_bytes + 3, and data_len + 3 is not reduced by the 16-bit tx_len.
After an init that returns OK page_size_bytes + 3 is below 65536, and the
session has this shape whenever it is live (malloc returned a block). -/
theorem scratch_accesses_in_bounds {δ : Type} (fuel : Nat) (s : State δ)
    (row_address col_address : Nat) (buffer data : List Nat) (read_len data_len : Nat)
    (hs : Shape (nand_spi_flash_page_size_bytes s + NSF_CMD_MAX_BYTES) s)
    (hP : nand_spi_flash_page_size_bytes s + 3 < 65536)
    (hbuf : read_len ≤ buffer.length) (hdata : data_len ≤ data.length) :
    inBounds (nand_spi_flash_page_read fuel s row_address col_address buffer read_len) ∧
    inBounds (nand_spi_flash_page_write fuel s row_address col_address data data_len) ∧
    inBounds (nand_spi_flash_block_erase fuel s row_address) ∧
    inBounds (nand_spi_flash_reset_unlock fuel s) ∧
    inBounds (nand_spi_flash_read_status fuel s) ∧
    (read_len ≤ nand_spi_flash_page_size_bytes s →
      4 + read_len ≤ nand_spi_flash_page_size_bytes s + 4) ∧
    (data_len + col_address ≤ nand_spi_flash_page_size_bytes s →
      3 + data_len ≤ nand_spi_flash_page_size_bytes s + 3 ∧
      (data_len + 3) % 65536 = data_len + 3) ∧
    (∀ (s0 s1 : State δ) (config : Config δ) (mem : Indeterminate),
      nand_spi_flash_init s0 config mem = .ok (NSF_ERR_OK, s1) →
      (live s1 → Shape (nand_spi_flash_page_size_bytes s1 + NSF_CMD_MAX_BYTES) s1) ∧
      nand_spi_flash_page_size_bytes s1 + 3 < 65536) := by
  unfold nand_spi_flash_page_size_bytes NSF_CMD_MAX_BYTES at *
  refine ⟨page_read_inBounds fuel s row_address col_address buffer read_len hs hbuf,
    page_write_inBounds fuel s row_address col_address data data_len hs hdata,
    block_erase_inBounds fuel s row_address hs, reset_unlock_inBounds fuel s hs,
    read_status_inBounds (by omega) fuel hs, fun h => by omega, fun h => ⟨by omega, ?_⟩,
    fun s0 s1 config mem h => init_ok_shape s0 s1 config mem h⟩
  exact Nat.mod_eq_of_lt (by omega)

/-- Witness for C20: the session with page size 4 and a scratch buffer of 8
bytes; a read of 2 bytes stays in bounds. -/
theorem scratch_accesses_in_bounds_witness :
    inBounds (nand_spi_flash_page_read 3 (smallSession (commandsThenStatus 1 0 0x00)) 5 0
      [9, 9] 2) :=
  (scratch_accesses_in_bounds 3 (smallSession (commandsThenStatus 1 0 0x00)) 5 0 [9, 9] [1, 2]
    2 2 ⟨by simp [smallSession], by rfl⟩ (by decide) (by decide) (by decide)).1

/-! ## Traces of the command exchanges -/

theorem command4_trace {δ : Type} (s : State δ) (a b c d rx_len : Nat) (r : Int × State δ)
    (h : ((store s 0 a).bind fun s => (store s 1 b).bind fun s => (store s 2 c).bind fun s =>
      (store s 3 d).bind fun s => call_spi_transfer s 4 rx_len) = .ok r) :
    r.2.trace = s.trace ++ [Event.spi [a % 256, b % 256, c % 256, d % 256] rx_len] ∧
    ∃ buf, r.2.m_nsf_buffer = some buf ∧ 4 + rx_len ≤ buf.length := by
  obtain ⟨c0, bo, p, bs, bc, dv, tr⟩ := s
  cases bo with
  | none => simp [store] at h
  | some buf =>
    match buf, h with
    | [], h => simp [store] at h
    | [_], h => simp [store] at h
    | [_, _], h => simp [store] at h
    | [_, _, _], h => simp [store] at h
    | b0 :: b1 :: b2 :: b3 :: rest, h =>
      cases c0 with
      | none => simp [store, call_spi_transfer] at h
      | some cfg =>
        simp [store, call_spi_transfer] at h
        split at h
        · rename_i hle
          injection h with h
          subst h
          refine ⟨rfl, _, rfl, ?_⟩
          simp only [exchange, writeBack_length, List.length_cons]
          exact hle
        · simp at h

theorem command4_trace_chain {δ : Type} (s s1 s2 s3 s4 : State δ) (a b c d rx_len : Nat)
    (r : Int × State δ) (h1 : store s 0 a = .ok s1) (h2 : store s1 1 b = .ok s2)
    (h3 : store s2 2 c = .ok s3) (h4 : store s3 3 d = .ok s4)
    (h5 : call_spi_transfer s4 4 rx_len = .ok r) :
    r.2.trace = s.trace ++ [Event.spi [a % 256, b % 256, c % 256, d % 256] rx_len] :=
  (command4_trace s a b c d rx_len r (by simp only [h1, h2, h3, h4, h5, Res.bind_ok])).1

theorem command3_trace {δ : Type} (s : State δ) (a b c : Nat) (r : Int × State δ)
    (h : ((store s 0 a).bind fun s => (store s 1 b).bind fun s => (store s 2 c).bind fun s =>
      call_spi_transfer s 3 0) = .ok r) :
    r.2.trace = s.trace ++ [Event.spi [a % 256, b % 256, c % 256] 0] := by
  obtain ⟨c0, bo, p, bs, bc, dv, tr⟩ := s
  cases bo with
  | none => simp [store] at h
  | some buf =>
    match buf, h with
    | [], h => simp [store] at h
    | [_], h => simp [store] at h
    | [_, _], h => simp [store] at h
    | b0 :: b1 :: b2 :: rest, h =>
      cases c0 with
      | none => simp [store, call_spi_transfer] at h
      | some cfg =>
        simp [store, call_spi_transfer] at h
        subst h
        rfl

theorem command1_trace {δ : Type} (s s1 : State δ) (a : Nat) (r : Int × State δ)
    (h1 : store s 0 a = .ok s1) (h2 : call_spi_transfer s1 1 0 = .ok r) :
    r.2.trace = s.trace ++ [Event.spi [a % 256] 0] := by
  obtain ⟨c0, bo, p, bs, bc, dv, tr⟩ := s
  cases bo with
  | none => simp [store] at h1
  | some buf =>
    match buf, h1 with
    | [], h1 => simp [store] at h1
    | b0 :: rest, h1 =>
      simp [store] at h1
      subst h1
      cases c0 with
      | none => simp [call_spi_transfer] at h2
      | some cfg =>
        simp [call_spi_transfer] at h2
        subst h2
        rfl

theorem call_spi_transfer_trace {δ : Type} (s : State δ) (tx_len rx_len : Nat)
    (r : Int × State δ) (h : call_spi_transfer s tx_len rx_len = .ok r) :
    ∃ tx, r.2.trace = s.trace ++ [Event.spi tx rx_len] := by
  unfold call_spi_transfer at h
  split at h
  · split at h
    · injection h with h
      subst h
      exact ⟨_, rfl⟩
    · simp at h
  · simp at h

theorem copy_in_trace {δ : Type} (s s1 : State δ) (off : Nat) (data : List Nat) (n : Nat)
    (h : copy_in s off data n = .ok s1) : s1.trace = s.trace := by
  unfold copy_in at h
  split at h
  · simp at h
  · split at h
    · injection h with h
      subst h
      rfl
    · simp at h

/-- A status poll that returns made at least one round. -/
theorem read_status_trace_pos {δ : Type} (fuel : Nat) (s s1 : State δ) (st : Nat)
    (h : nand_spi_flash_read_status fuel s = .ok (st, s1)) :
    ∃ n, 1 ≤ n ∧ s1.trace = s.trace ++ pollEvents n := by
  unfold nand_spi_flash_read_status at h
  obtain ⟨s0, h0, h⟩ := Res.bind_eq_ok _ _ _ h
  obtain ⟨n, hn, hl, hc⟩ := read_status_loop_polls_inv fuel s0 s1 st h
  refine ⟨n, ?_, by rw [polls_trace n s0 s1 hn, store_trace s s0 _ _ h0]⟩
  cases n with
  | succ n => omega
  | zero =>
    exfalso
    simp only [polls] at hn
    injection hn with hn
    subst hn
    obtain ⟨c0, bo, p, bs, bc, dv, tr⟩ := s
    cases bo with
    | none => simp [store] at h0
    | some buf =>
      match buf, h0 with
      | [], h0 => simp [store] at h0
      | [_], h0 => simp [store] at h0
      | [_, _], h0 => simp [store] at h0
      | x0 :: x1 :: x2 :: rest, h0 =>
        simp [store, NSF_OIP_MASK] at h0
        subst h0
        simp [load] at hl
        subst hl
        simp [NSF_OIP_MASK] at hc

theorem block_erase_commands_trace {δ : Type} (s s1 : State δ) (row_address : Nat) (rc : Int)
    (h : block_erase_commands s row_address = .ok (rc, s1)) (hrc : rc ≠ NSF_ERROR_SPI) :
    s1.trace = s.trace ++ [Event.spi [0x06] 0, Event.spi (rowCommand 0xD8 row_address) 0] := by
  unfold block_erase_commands at h
  obtain ⟨a1, h1, h⟩ := Res.bind_eq_ok _ _ _ h
  obtain ⟨r1, h2, h⟩ := Res.bind_eq_ok _ _ _ h
  have t1 := command1_trace s a1 _ r1 h1 h2
  split at h
  · injection h with h
    exact absurd (congrArg Prod.fst h).symm hrc
  · obtain ⟨a2, h3, h⟩ := Res.bind_eq_ok _ _ _ h
    obtain ⟨a3, h4, h⟩ := Res.bind_eq_ok _ _ _ h
    obtain ⟨a4, h5, h⟩ := Res.bind_eq_ok _ _ _ h
    obtain ⟨a5, h6, h⟩ := Res.bind_eq_ok _ _ _ h
    obtain ⟨r2, h7, h⟩ := Res.bind_eq_ok _ _ _ h
    have t2 := command4_trace_chain r1.2 a2 a3 a4 a5 _ _ _ _ 0 r2 h3 h4 h5 h6 h7
    split at h
    · injection h with h
      exact absurd (congrArg Prod.fst h).symm hrc
    · injection h with h
      have hs : r2.2 = s1 := congrArg Prod.snd h
      rw [← hs, t2, t1]
      simp [rowCommand, NSF_CMD_WRITE_ENABLE, NSF_CMD_BLOCK_ERASE]

theorem page_write_commands_trace {δ : Type} (s s1 : State δ) (row_address col_address : Nat)
    (data : List Nat) (data_len : Nat) (rc : Int)
    (h : page_write_commands s row_address col_address data data_len = .ok (rc, s1))
    (hrc : rc ≠ NSF_ERROR_SPI) :
    ∃ tx, s1.trace = s.trace ++ [Event.spi [0x06] 0, Event.spi tx 0,
      Event.spi (rowCommand 0x10 row_address) 0] := by
  unfold page_write_commands at h
  obtain ⟨a1, h1, h⟩ := Res.bind_eq_ok _ _ _ h
  obtain ⟨r1, h2, h⟩ := Res.bind_eq_ok _ _ _ h
  have t1 := command1_trace s a1 _ r1 h1 h2
  split at h
  · injection h with h
    exact absurd (congrArg Prod.fst h).symm hrc
  · obtain ⟨b1, g1, h⟩ := Res.bind_eq_ok _ _ _ h
    obtain ⟨b2, g2, h⟩ := Res.bind_eq_ok _ _ _ h
    obtain ⟨b3, g3, h⟩ := Res.bind_eq_ok _ _ _ h
    obtain ⟨b4, g4, h⟩ := Res.bind_eq_ok _ _ _ h
    obtain ⟨r2, g5, h⟩ := Res.bind_eq_ok _ _ _ h
    obtain ⟨tx, t2⟩ := call_spi_transfer_trace _ _ _ r2 g5
    rw [copy_in_trace _ _ _ _ _ g4, store_trace _ _ _ _ g3, store_trace _ _ _ _ g2,
      store_trace _ _ _ _ g1, t1] at t2
    split at h
    · injection h with h
      exact absurd (congrArg Prod.fst h).symm hrc
    · obtain ⟨a2, h3, h⟩ := Res.bind_eq_ok _ _ _ h
      obtain ⟨a3, h4, h⟩ := Res.bind_eq_ok _ _ _ h
      obtain ⟨a4, h5, h⟩ := Res.bind_eq_ok _ _ _ h
      obtain ⟨a5, h6, h⟩ := Res.bind_eq_ok _ _ _ h
      obtain ⟨r3, h7, h⟩ := Res.bind_eq_ok _ _ _ h
      have t3 := command4_trace_chain r2.2 a2 a3 a4 a5 _ _ _ _ 0 r3 h3 h4 h5 h6 h7
      split at h
      · injection h with h
        exact absurd (congrArg Prod.fst h).symm hrc
      · injection h with h
        have hs : r3.2 = s1 := congrArg Prod.snd h
        refine ⟨tx, ?_⟩
        rw [← hs, t3, t2]
        simp [rowCommand, NSF_CMD_WRITE_ENABLE, NSF_CMD_PROGRAM_EXECUTE]

theorem page_read_fetch_eq {δ : Type} (s : State δ) (col_address : Nat) (buffer : List Nat)
    (read_len : Nat) :
    page_read_fetch s col_address buffer read_len =
      (page_read_fetch_command s col_address read_len).bind fun r =>
      if r.1 ≠ 0 then .ok (NSF_ERROR_SPI, buffer, r.2) else
      (copy_out r.2 4 read_len buffer).bind fun out =>
      .ok ((read_len : Int), out, r.2) := by
  simp only [page_read_fetch, page_read_fetch_command, Res.bind_assoc]

theorem page_read_fetch_command_trace {δ : Type} (s : State δ) (col_address read_len : Nat)
    (r : Int × State δ) (h : page_read_fetch_command s col_address read_len = .ok r) :
    r.2.trace = s.trace ++
      [Event.spi [0x03, ((col_address &&& 0xff00) >>> 8) % 256, col_address % 256, 0x00]
        read_len] ∧
    ∃ buf, r.2.m_nsf_buffer = some buf ∧ 4 + read_len ≤ buf.length :=
  command4_trace s 0x03 ((col_address &&& 0xff00) >>> 8) col_address 0x00 read_len r h

theorem reset_unlock_eq {δ : Type} (fuel : Nat) (s : State δ) :
    nand_spi_flash_reset_unlock fuel s =
      (reset_command s).bind fun r =>
      if r.1 ≠ 0 then .ok (NSF_ERROR_SPI, r.2) else
      (nand_spi_flash_read_status fuel r.2).bind fun p =>
      (unlock_command p.2).bind fun r =>
      if r.1 ≠ 0 then .ok (NSF_ERROR_SPI, r.2) else .ok (NSF_ERR_OK, r.2) := by
  simp only [nand_spi_flash_reset_unlock, reset_command, unlock_command, Res.bind_assoc]

theorem reset_command_trace {δ : Type} (s : State δ) (r : Int × State δ)
    (h : reset_command s = .ok r) : r.2.trace = s.trace ++ [Event.spi [0xFF] 0] := by
  unfold reset_command at h
  obtain ⟨s1, h1, h2⟩ := Res.bind_eq_ok _ _ _ h
  exact command1_trace s s1 _ r h1 h2

theorem unlock_command_trace {δ : Type} (s : State δ) (r : Int × State δ)
    (h : unlock_command s = .ok r) :
    r.2.trace = s.trace ++ [Event.spi [0x1F, 0xA0, 0x00] 0] :=
  command3_trace s _ _ _ r h

theorem page_read_fetch_trace {δ : Type} (s s1 : State δ) (col_address : Nat)
    (buffer : List Nat) (read_len : Nat) (r : Int) (out : List Nat)
    (h : page_read_fetch s col_address buffer read_len = .ok (r, out, s1)) :
    s1.trace = s.trace ++
      [Event.spi [0x03, ((col_address &&& 0xff00) >>> 8) % 256, col_address % 256, 0x00]
        read_len] := by
  rw [page_read_fetch_eq] at h
  obtain ⟨rf, h1, h⟩ := Res.bind_eq_ok _ _ _ h
  have t := (page_read_fetch_command_trace s col_address read_len rf h1).1
  split at h
  · injection h with h
    have hs : rf.2 = s1 := congrArg (fun x => x.2.2) h
    rw [← hs, t]
  · obtain ⟨o, _, h⟩ := Res.bind_eq_ok _ _ _ h
    injection h with h
    have hs : rf.2 = s1 := congrArg (fun x => x.2.2) h
    rw [← hs, t]

/-! ## C17: serialisation of the row address -/

theorem and_shiftRight_mask (row m k : Nat) :
    (row &&& m) >>> k = (row >>> k) &&& (m >>> k) := by
  apply Nat.eq_of_testBit_eq
  intro i
  simp only [Nat.testBit_shiftRight, Nat.testBit_and]

theorem row_byte_hi (row : Nat) :
    ((row &&& 0xff0000) >>> 16) % 256 = (row >>> 16) &&& 0xFF := by
  rw [and_shiftRight_mask]
  have h : (0xff0000 : Nat) >>> 16 = 0xFF := by decide
  rw [h]
  exact Nat.mod_eq_of_lt (Nat.lt_of_le_of_lt Nat.and_le_right (by decide))

theorem row_byte_mid (row : Nat) :
    ((row &&& 0xff00) >>> 8) % 256 = (row >>> 8) &&& 0xFF := by
  rw [and_shiftRight_mask]
  have h : (0xff00 : Nat) >>> 8 = 0xFF := by decide
  rw [h]
  exact Nat.mod_eq_of_lt (Nat.lt_of_le_of_lt Nat.and_le_right (by decide))

theorem row_byte_lo (row : Nat) : row % 256 = row &&& 0xFF := by
  have h : (0xFF : Nat) = 2 ^ 8 - 1 := by decide
  rw [h, Nat.and_pow_two_sub_one_eq_mod]

theorem row_bytes_value (row : Nat) :
    ((row >>> 16) &&& 0xFF) * 65536 + ((row >>> 8) &&& 0xFF) * 256 + (row &&& 0xFF)
      = row % 2 ^ 24 := by
  have h : (0xFF : Nat) = 2 ^ 8 - 1 := by decide
  rw [h, Nat.and_pow_two_sub_one_eq_mod, Nat.and_pow_two_sub_one_eq_mod,
    Nat.and_pow_two_sub_one_eq_mod, Nat.shiftRight_eq_div_pow, Nat.shiftRight_eq_div_pow]
  omega

theorem rowCommand_bytes (opcode row : Nat) :
    rowCommand opcode row
      = [opcode, (row >>> 16) &&& 0xFF, (row >>> 8) &&& 0xFF, row &&& 0xFF] := by
  rw [rowCommand, row_byte_hi, row_byte_mid, row_byte_lo]

theorem rowCommand_congr (opcode row row' : Nat) (h : row' % 2 ^ 24 = row % 2 ^ 24) :
    rowCommand opcode row' = rowCommand opcode row := by
  have e : ∀ r : Nat, rowCommand opcode r
      = [opcode, r % 2 ^ 24 / 65536 % 256, r % 2 ^ 24 / 256 % 256, r % 2 ^ 24 % 256] := by
    intro r
    have h8 : (0xFF : Nat) = 2 ^ 8 - 1 := by decide
    rw [rowCommand_bytes, h8, Nat.and_pow_two_sub_one_eq_mod, Nat.and_pow_two_sub_one_eq_mod,
      Nat.and_pow_two_sub_one_eq_mod, Nat.shiftRight_eq_div_pow, Nat.shiftRight_eq_div_pow]
    have a1 : r / 2 ^ 16 % 2 ^ 8 = r % 2 ^ 24 / 65536 % 256 := by omega
    have a2 : r / 2 ^ 8 % 2 ^ 8 = r % 2 ^ 24 / 256 % 256 := by omega
    have a3 : r % 2 ^ 8 = r % 2 ^ 24 % 256 := by omega
    rw [a1, a2, a3]
  rw [e row, e row', h]

/-- C17. The bytes written with a row address are the opcode followed by
(row_address >> 16) & 0xFF, (row_address >> 8) & 0xFF and row_address & 0xFF;
read as a big-endian number the three bytes are row_address mod 2^24, and two
row addresses equal modulo 2^24 give the same bytes. These are the bytes of
the first exchange of every page read that passes the length check (opcode
0x13), of the third exchange of every page write whose three command
exchanges succeed (opcode 0x10) and of the second exchange of every block
erase whose two command exchanges succeed (opcode 0xD8); in each case the
exchange reads 0 bytes, and for the erase the low-order bits of the row
address are sent as they are. -/
theorem row_address_serialisation {δ : Type} (fuel : Nat) (s : State δ)
    (row_address col_address : Nat) (buffer data : List Nat) (read_len data_len : Nat) :
    (∀ opcode : Nat, rowCommand opcode row_address =
      [opcode, (row_address >>> 16) &&& 0xFF, (row_address >>> 8) &&& 0xFF,
        row_address &&& 0xFF]) ∧
    (((row_address >>> 16) &&& 0xFF) * 65536 + ((row_address >>> 8) &&& 0xFF) * 256
      + (row_address &&& 0xFF) = row_address % 2 ^ 24) ∧
    (∀ opcode row' : Nat, row' % 2 ^ 24 = row_address % 2 ^ 24 →
      rowCommand opcode row' = rowCommand opcode row_address) ∧
    (∀ (r : Int) (out : List Nat) (s1 : State δ),
      nand_spi_flash_page_read fuel s row_address col_address buffer read_len = .ok (r, out, s1) →
      r ≠ NSF_ERR_DATA_TOO_BIG →
      ∃ rest, s1.trace = s.trace ++ Event.spi (rowCommand 0x13 row_address) 0 :: rest) ∧
    (∀ (r : Int) (s1 : State δ),
      nand_spi_flash_page_write fuel s row_address col_address data data_len = .ok (r, s1) →
      r ≠ NSF_ERR_DATA_TOO_BIG → r ≠ NSF_ERROR_SPI →
      ∃ tx n, s1.trace = s.trace ++ [Event.spi [0x06] 0, Event.spi tx 0,
        Event.spi (rowCommand 0x10 row_address) 0] ++ pollEvents n) ∧
    (∀ (r : Int) (s1 : State δ),
      nand_spi_flash_block_erase fuel s row_address = .ok (r, s1) → r ≠ NSF_ERROR_SPI →
      ∃ n, s1.trace = s.trace ++ [Event.spi [0x06] 0,
        Event.spi (rowCommand 0xD8 row_address) 0] ++ pollEvents n) := by
  refine ⟨fun opcode => rowCommand_bytes opcode row_address, row_bytes_value row_address,
    fun opcode row' h => rowCommand_congr opcode row_address row' h, ?_, ?_, ?_⟩
  · intro r out s1 h hr
    rw [page_read_eq] at h
    split at h
    · injection h with h
      exact absurd (congrArg Prod.fst h).symm hr
    · obtain ⟨rl, h1, h⟩ := Res.bind_eq_ok _ _ _ h
      have t1 := page_read_load_trace s rl.2 row_address rl.1 h1
      split at h
      · injection h with h
        have hs : rl.2 = s1 := congrArg (fun x => x.2.2) h
        exact ⟨[], by rw [← hs, t1]; rfl⟩
      · obtain ⟨p, h2, h⟩ := Res.bind_eq_ok _ _ _ h
        obtain ⟨n, t2⟩ := read_status_trace fuel rl.2 p.2 p.1 h2
        split at h
        · injection h with h
          have hs : p.2 = s1 := congrArg (fun x => x.2.2) h
          exact ⟨pollEvents n, by rw [← hs, t2, t1]; simp [NSF_CMD_READ_CELL_TO_CACHE]⟩
        · have t3 := page_read_fetch_trace p.2 s1 col_address buffer read_len r out h
          exact ⟨pollEvents n ++ [Event.spi [0x03, ((col_address &&& 0xff00) >>> 8) % 256,
            col_address % 256, 0x00] read_len],
            by rw [t3, t2, t1]; simp [NSF_CMD_READ_CELL_TO_CACHE]⟩
  · intro r s1 h hr1 hr2
    rw [page_write_eq] at h
    split at h
    · injection h with h
      exact absurd (congrArg Prod.fst h).symm hr1
    · obtain ⟨rc, h1, h⟩ := Res.bind_eq_ok _ _ _ h
      split at h
      · injection h with h
        exact absurd (congrArg Prod.fst h).symm hr2
      · rename_i hz
        have hz0 : rc.1 = 0 := not_not.mp hz
        obtain ⟨tx, t1⟩ := page_write_commands_trace s rc.2 row_address col_address data
          data_len rc.1 h1 (by rw [hz0]; decide)
        obtain ⟨p, h2, h⟩ := Res.bind_eq_ok _ _ _ h
        obtain ⟨n, t2⟩ := read_status_trace fuel rc.2 p.2 p.1 h2
        injection h with h
        have hs : p.2 = s1 := congrArg Prod.snd h
        exact ⟨tx, n, by rw [← hs, t2, t1]⟩
  · intro r s1 h hr
    rw [block_erase_eq] at h
    obtain ⟨rc, h1, h⟩ := Res.bind_eq_ok _ _ _ h
    split at h
    · injection h with h
      exact absurd (congrArg Prod.fst h).symm hr
    · rename_i hz
      have hz0 : rc.1 = 0 := not_not.mp hz
      have t1 := block_erase_commands_trace s rc.2 row_address rc.1 h1 (by rw [hz0]; decide)
      obtain ⟨p, h2, h⟩ := Res.bind_eq_ok _ _ _ h
      obtain ⟨n, t2⟩ := read_status_trace fuel rc.2 p.2 p.1 h2
      injection h with h
      have hs : p.2 = s1 := congrArg Prod.snd h
      exact ⟨n, by rw [← hs, t2, t1]⟩

/-- Witness for C17: the erase of row 0x1234567 sends 0xD8, 0x23, 0x45, 0x67. -/
theorem row_address_serialisation_witness :
    ∃ n, ({ smallSession [] with
              m_nsf_buffer := some [0x0F, 0xC0, 0x00, 0x67, 0, 0, 0, 0],
              trace := [Event.spi [0x06] 0, Event.spi [0xD8, 0x23, 0x45, 0x67] 0]
                ++ pollEvents 1 } : State (List (Int × List Nat))).trace
      = (smallSession (commandsThenStatus 2 0 0x00)).trace ++ [Event.spi [0x06] 0,
          Event.spi (rowCommand 0xD8 0x1234567) 0] ++ pollEvents n :=
  (row_address_serialisation 3 (smallSession (commandsThenStatus 2 0 0x00)) 0x1234567 0 [] []
    0 0).2.2.2.2.2 NSF_ERR_OK _ (by rfl) (by decide)

/-! ## C18: a successful page read -/

theorem col_byte_hi (col_address : Nat) (h : col_address < 65536) :
    ((col_address &&& 0xff00) >>> 8) % 256 = col_address >>> 8 := by
  rw [row_byte_mid]
  have h8 : (0xFF : Nat) = 2 ^ 8 - 1 := by decide
  rw [h8, Nat.and_pow_two_sub_one_eq_mod, Nat.shiftRight_eq_div_pow]
  omega

theorem copied_bytes (scratch buffer : List Nat) (n : Nat) (hs : 4 + n ≤ scratch.length)
    (hb : n ≤ buffer.length) :
    ((scratch.drop 4).take n ++ buffer.drop n).length = buffer.length ∧
    (∀ i, i < n → ((scratch.drop 4).take n ++ buffer.drop n).getD i 0 = scratch.getD (4 + i) 0) ∧
    (∀ i, n ≤ i → ((scratch.drop 4).take n ++ buffer.drop n).getD i 0 = buffer.getD i 0) := by
  have hl : ((scratch.drop 4).take n).length = n := by
    rw [List.length_take, List.length_drop]
    omega
  refine ⟨?_, ?_, ?_⟩
  · rw [List.length_append, hl, List.length_drop]
    omega
  · intro i hi
    simp only [List.getD_eq_getElem?_getD]
    rw [List.getElem?_append_left (by omega), List.getElem?_take_of_lt hi, List.getElem?_drop]
  · intro i hi
    simp only [List.getD_eq_getElem?_getD]
    rw [List.getElem?_append_right (by omega), hl, List.getElem?_drop]
    congr 2
    omega

/-- C18. A page read with read_len at most page_size_bytes, a 16-bit column
address and a destination of at least read_len bytes, whose load-page
exchange returns 0, whose status poll ends with a byte st with st AND 0x30
different from 0x30, and whose read-from-cache exchange returns 0 leaving the
scratch buffer as scratch: the call returns read_len; the calls it made are,
in order, the exchange writing 0x13 and the three row bytes and reading 0,
the rounds of the poll (at least one), and the exchange writing 0x03,
col_address >> 8, col_address & 0xFF, 0x00 and reading read_len; the
destination keeps its length, its byte i is scratch byte 4 + i for
i < read_len and is unchanged for i >= read_len. -/
theorem page_read_success {δ : Type} (fuel : Nat) (s s1 s2 s3 : State δ)
    (row_address col_address : Nat) (buffer scratch : List Nat) (read_len st : Nat)
    (hlen : read_len ≤ nand_spi_flash_page_size_bytes s)
    (hcol : col_address < 65536)
    (hdest : read_len ≤ buffer.length)
    (hload : page_read_load s row_address = .ok (0, s1))
    (hpoll : nand_spi_flash_read_status fuel s1 = .ok (st, s2))
    (hecc : st &&& 0x30 ≠ 0x30)
    (hfetch : page_read_fetch_command s2 col_address read_len = .ok (0, s3))
    (hscratch : s3.m_nsf_buffer = some scratch) :
    ∃ out,
      nand_spi_flash_page_read fuel s row_address col_address buffer read_len
        = .ok ((read_len : Int), out, s3) ∧
      (∃ n, 1 ≤ n ∧ s3.trace = s.trace ++ [Event.spi (rowCommand 0x13 row_address) 0]
        ++ pollEvents n
        ++ [Event.spi [0x03, col_address >>> 8, col_address &&& 0xFF, 0x00] read_len]) ∧
      out.length = buffer.length ∧
      (∀ i, i < read_len → out.getD i 0 = scratch.getD (4 + i) 0) ∧
      (∀ i, read_len ≤ i → out.getD i 0 = buffer.getD i 0) := by
  unfold nand_spi_flash_page_size_bytes at hlen
  obtain ⟨t3, buf, hb, hle⟩ := page_read_fetch_command_trace s2 col_address read_len _ hfetch
  simp only at t3 hb hle
  rw [hscratch] at hb
  injection hb with hb
  subst hb
  obtain ⟨hl, hfront, hback⟩ := copied_bytes scratch buffer read_len hle hdest
  refine ⟨(scratch.drop 4).take read_len ++ buffer.drop read_len, ?_, ?_, hl, hfront, hback⟩
  · have hecc1 : ¬ st &&& NSF_ECC_MASK = NSF_ECC_MASK := hecc
    have hcopy : copy_out s3 4 read_len buffer
        = .ok ((scratch.drop 4).take read_len ++ buffer.drop read_len) := by
      simp [copy_out, hscratch, hle, hdest]
    rw [page_read_eq, if_neg (not_lt.mpr hlen), hload, Res.bind_ok]
    simp only [ne_eq, not_true_eq_false, if_false, hpoll, Res.bind_ok, if_neg hecc1]
    rw [page_read_fetch_eq, hfetch, Res.bind_ok]
    simp only [ne_eq, not_true_eq_false, if_false, hcopy, Res.bind_ok]
  · obtain ⟨n, hn, t2⟩ := read_status_trace_pos fuel s1 s2 st hpoll
    refine ⟨n, hn, ?_⟩
    rw [t3, t2, page_read_load_trace s s1 row_address 0 hload, col_byte_hi col_address hcol,
      row_byte_lo col_address]
    rfl

/-- Witness for C18: a read of 2 bytes at column 0x0102 of row 5; the
transport leaves 0xAA, 0xBB at scratch offsets 4 and 5. -/
theorem page_read_success_witness :
    ∃ out,
      nand_spi_flash_page_read 3
        (smallSession [(0, []), (0, [0x0F, 0xC0, 0x00]), (0, [0x03, 1, 2, 0, 0xAA, 0xBB])])
        5 0x0102 [9, 9, 9] 2
        = .ok (((2 : Nat) : Int), out,
            { smallSession [] with
                m_nsf_buffer := some [0x03, 1, 2, 0, 0xAA, 0xBB, 0, 0],
                trace := [Event.spi [0x13, 0, 0, 5] 0] ++ pollEvents 1
                  ++ [Event.spi [0x03, 1, 2, 0] 2] }) ∧
      (∃ n, 1 ≤ n ∧
        ({ smallSession [] with
             m_nsf_buffer := some [0x03, 1, 2, 0, 0xAA, 0xBB, 0, 0],
             trace := [Event.spi [0x13, 0, 0, 5] 0] ++ pollEvents 1
               ++ [Event.spi [0x03, 1, 2, 0] 2] } : State (List (Int × List Nat))).trace
        = (smallSession [(0, []), (0, [0x0F, 0xC0, 0x00]),
            (0, [0x03, 1, 2, 0, 0xAA, 0xBB])]).trace
          ++ [Event.spi (rowCommand 0x13 5) 0] ++ pollEvents n
          ++ [Event.spi [0x03, 0x0102 >>> 8, 0x0102 &&& 0xFF, 0x00] 2]) ∧
      out.length = [9, 9, 9].length ∧
      (∀ i, i < 2 → out.getD i 0 = [0x03, 1, 2, 0, 0xAA, 0xBB, 0, 0].getD (4 + i) 0) ∧
      (∀ i, 2 ≤ i → out.getD i 0 = [9, 9, 9].getD i 0) :=
  page_read_success 3
    (smallSession [(0, []), (0, [0x0F, 0xC0, 0x00]), (0, [0x03, 1, 2, 0, 0xAA, 0xBB])])
    { smallSession [(0, [0x0F, 0xC0, 0x00]), (0, [0x03, 1, 2, 0, 0xAA, 0xBB])] with
        m_nsf_buffer := some [0x13, 0, 0, 5, 0, 0, 0, 0],
        trace := [Event.spi [0x13, 0, 0, 5] 0] }
    { smallSession [(0, [0x03, 1, 2, 0, 0xAA, 0xBB])] with
        m_nsf_buffer := some [0x0F, 0xC0, 0x00, 5, 0, 0, 0, 0],
        trace := [Event.spi [0x13, 0, 0, 5] 0] ++ pollEvents 1 }
    { smallSession [] with
        m_nsf_buffer := some [0x03, 1, 2, 0, 0xAA, 0xBB, 0, 0],
        trace := [Event.spi [0x13, 0, 0, 5] 0] ++ pollEvents 1
          ++ [Event.spi [0x03, 1, 2, 0] 2] }
    5 0x0102 [9, 9, 9] [0x03, 1, 2, 0, 0xAA, 0xBB, 0, 0] 2 0x00
    (by decide) (by decide) (by decide) (by rfl) (by rfl) (by decide) (by rfl) rfl

/-! ## C19: reset and unlock -/

/-- C19. When the reset exchange returns 0, the status poll returns and the
set-feature exchange returns 0, nand_spi_flash_reset_unlock returns OK (0) and
the calls it made are, in order, the exchange writing the byte 0xFF and
reading 0, the rounds of the poll (at least one), and the exchange writing
0x1F, 0xA0, 0x00 and reading 0. When the reset exchange returns a nonzero
value the function returns TransportFailure (-100) and the reset exchange is
the only call it made: no poll and no set-feature exchange. -/
theorem reset_unlock_sequence {δ : Type} (fuel : Nat) (s s1 s2 s3 : State δ) (st : Nat)
    (rc : Int) :
    (reset_command s = .ok (0, s1) →
      nand_spi_flash_read_status fuel s1 = .ok (st, s2) →
      unlock_command s2 = .ok (0, s3) →
      nand_spi_flash_reset_unlock fuel s = .ok (NSF_ERR_OK, s3) ∧
      ∃ n, 1 ≤ n ∧ s3.trace = s.trace ++ [Event.spi [0xFF] 0] ++ pollEvents n
        ++ [Event.spi [0x1F, 0xA0, 0x00] 0]) ∧
    (reset_command s = .ok (rc, s1) → rc ≠ 0 →
      nand_spi_flash_reset_unlock fuel s = .ok (NSF_ERROR_SPI, s1) ∧
      s1.trace = s.trace ++ [Event.spi [0xFF] 0]) ∧
    NSF_ERR_OK = 0 ∧ NSF_ERROR_SPI = -100 := by
  refine ⟨?_, ?_, rfl, rfl⟩
  · intro hreset hpoll hunlock
    constructor
    · rw [reset_unlock_eq, hreset, Res.bind_ok]
      simp only [ne_eq, not_true_eq_false, if_false, hpoll, Res.bind_ok, hunlock]
    · obtain ⟨n, hn, t2⟩ := read_status_trace_pos fuel s1 s2 st hpoll
      refine ⟨n, hn, ?_⟩
      rw [unlock_command_trace s2 _ hunlock, t2, reset_command_trace s _ hreset]
  · intro hreset hrc
    constructor
    · rw [reset_unlock_eq, hreset, Res.bind_ok]
      simp only [ne_eq, hrc, not_false_eq_true, if_true]
    · exact reset_command_trace s _ hreset

/-- Witness for C19: a reset and unlock whose poll takes one round. -/
theorem reset_unlock_sequence_witness :
    nand_spi_flash_reset_unlock 3 (smallSession (commandsThenStatus 1 0 0x00))
      = .ok (NSF_ERR_OK,
          { smallSession [] with
              m_nsf_buffer := some [0x1F, 0xA0, 0x00, 0, 0, 0, 0, 0],
              trace := [Event.spi [0xFF] 0] ++ pollEvents 1
                ++ [Event.spi [0x1F, 0xA0, 0x00] 0] }) ∧
    ∃ n, 1 ≤ n ∧
      ({ smallSession [] with
           m_nsf_buffer := some [0x1F, 0xA0, 0x00, 0, 0, 0, 0, 0],
           trace := [Event.spi [0xFF] 0] ++ pollEvents 1
             ++ [Event.spi [0x1F, 0xA0, 0x00] 0] } : State (List (Int × List Nat))).trace
        = (smallSession (commandsThenStatus 1 0 0x00)).trace ++ [Event.spi [0xFF] 0]
          ++ pollEvents n ++ [Event.spi [0x1F, 0xA0, 0x00] 0] :=
  (reset_unlock_sequence 3 (smallSession (commandsThenStatus 1 0 0x00))
    { smallSession [(0, [0x0F, 0xC0, 0x00])] with
        m_nsf_buffer := some [0xFF, 0, 0, 0, 0, 0, 0, 0],
        trace := [Event.spi [0xFF] 0] }
    { smallSession [] with
        m_nsf_buffer := some [0x0F, 0xC0, 0x00, 0, 0, 0, 0, 0],
        trace := [Event.spi [0xFF] 0] ++ pollEvents 1 }
    { smallSession [] with
        m_nsf_buffer := some [0x1F, 0xA0, 0x00, 0, 0, 0, 0, 0],
        trace := [Event.spi [0xFF] 0] ++ pollEvents 1 ++ [Event.spi [0x1F, 0xA0, 0x00] 0] }
    0x00 0).1 (by rfl) (by rfl) (by rfl)

end NandSpiFlash
